import Mathlib

/-!
Formal model of the `dpmmn14` backup server (`RequestHandler.cpp`,
`RequestHandler.h`, `main.cpp`).

The server handles one TCP connection per `RequestHandler`: a loop reads a
packed 6-byte request header `{u32 userId, u8 version, u8 op}` and dispatches
on the operation code (BACKUP=100, RESTORE=200, DELETE=201, LIST=202), with
statuses RESTORE_SUCCESS=210, LIST_SUCCESS=211, GENERAL_SUCCESS=212,
ERROR_NO_FILE=1001, ERROR_NO_FILES_FOR_CLIENT=1002, ERROR_GENERAL=1003.

Model choices (shallow embedding):
* The read side of the socket is a finite byte list `input`: the bytes the
  transport will ever deliver.  `boost::asio::read` into an `n`-byte buffer
  succeeds iff `n` bytes remain; on EOF/error it consumes what was available
  and reports failure, so a failed read leaves `input = []`.  The ghost flag
  `rfail` records that some read failed.
* The write side is a capacity `wcap`: the number of bytes the transport will
  still accept.  `boost::asio::write` of `len` bytes succeeds iff
  `len ≤ wcap` and always consumes `min len wcap` capacity.  Both overloads
  used in the source take an `error_code`, so a failed write never throws:
  it only makes `sendBytes` return `false`.
* Each of the three response-encoding functions appends one abstract `Resp`
  event to `trace` recording the field values the code computes (the protocol
  version byte is the constant 1 in every response and is left implicit).
  For streamed responses, `sent` is `totalBytesSent`, the number of content
  bytes actually accepted by the transport.
* Multi-byte integers are little-endian on the wire (packed x86 structs).
* Paths: `fs::path` operator `/` and OS-level resolution of `.` and `..`
  are modelled by splitting the wire filename on the separators `/` (47) and
  `\` (92) and lexically normalising against the storage root.  A resolved
  path is a pair `(above, comps)`: `above` levels above the storage root,
  then components `comps`.  `std::to_string(userId)` is the decimal-digit
  byte string `uidComp`.
* The filesystem is a record of association lists keyed by resolved paths:
  regular files with their contents (list order = directory enumeration
  order), existing directories, and environment sets for paths whose
  open-for-write fails, open-for-read fails, or whose `fs::remove` fails.
  `fs::exists` on RESTORE/DELETE targets is modelled as regular-file lookup
  (no claim concerns directory-typed targets of those operations).
* The `while (true)` session loop and the chunked transfer loops are given
  explicit fuel; wrappers always pass provably sufficient fuel, so all
  functions are structurally recursive and evaluate by `decide`/`rfl`.
-/

namespace BackupSrv

/-- Little-endian value of a byte list (least significant byte first). -/
def decodeLE (bs : List Nat) : Nat := bs.foldr (fun b acc => b + 256 * acc) 0

/-- The two wire bytes of a `uint16_t` (little-endian). -/
def encodeU16 (n : Nat) : List Nat := [n % 256, n / 256 % 256]

/-- The four wire bytes of a `uint32_t` (little-endian). -/
def encodeU32 (n : Nat) : List Nat :=
  [n % 256, n / 256 % 256, n / 2 ^ 16 % 256, n / 2 ^ 24 % 256]

/-- Path separator bytes recognised by `fs::path` on Windows. -/
def isSep (b : Nat) : Bool := b == 47 || b == 92

/-- Split a byte sequence on separators; accumulator holds the current
component reversed. -/
def splitSepAux : List Nat → List Nat → List (List Nat)
  | [], cur => [cur.reverse]
  | b :: rest, cur =>
    if isSep b then cur.reverse :: splitSepAux rest []
    else splitSepAux rest (b :: cur)

/-- Split a wire filename into path components. -/
def splitSep (l : List Nat) : List (List Nat) := splitSepAux l []

/-- Lexical normalisation of path components relative to the storage root:
empty components and `.` vanish, `..` pops (or counts a level above the
root).  Returns (levels above root, components from the root). -/
def normAux : List (List Nat) → Nat → List (List Nat) → Nat × List (List Nat)
  | [], above, stack => (above, stack.reverse)
  | c :: rest, above, stack =>
    if c = [] ∨ c = [46] then normAux rest above stack
    else if c = [46, 46] then
      match stack with
      | [] => normAux rest (above + 1) []
      | _ :: st => normAux rest above st
    else normAux rest above (c :: stack)

/-- A resolved location: levels above the storage root, then components. -/
abbrev PathKey := Nat × List (List Nat)

/-- Decimal digit bytes of `n`, least significant first; the fuel (any bound
on `n`) makes the recursion structural. -/
def digAux : Nat → Nat → List Nat
  | 0, _ => []
  | fuel + 1, n => if n = 0 then [] else (n % 10 + 48) :: digAux fuel (n / 10)

/-- Byte string of `std::to_string userId` (decimal digits). -/
def uidComp (uid : Nat) : List Nat :=
  if uid = 0 then [48] else (digAux uid uid).reverse

/-- Resolution of `BASE_BACKUP_PATH / to_string(userId) / filename` performed
by BACKUP, RESTORE and DELETE, as the OS finally resolves it. -/
def resolvePath (uid : Nat) (filename : List Nat) : PathKey :=
  normAux (uidComp uid :: splitSep filename) 0 []

/-- A filename with no separators, nonempty, and not `.` or `..`: one that
names a directory entry literally. -/
def plainName (name : List Nat) : Bool :=
  !name.isEmpty && !decide (name = [46]) && !decide (name = [46, 46])
    && name.all (fun b => !isSep b)

/-- First lookup by resolved path in the regular-file list. -/
def lookupF (p : PathKey) : List (PathKey × List Nat) → Option (List Nat)
  | [] => none
  | e :: rest => if e.1 = p then some e.2 else lookupF p rest

/-- Create or truncate a regular file (`std::ofstream` open): replace in
place if present, otherwise the new entry appears at the end of the
enumeration order. -/
def setF (p : PathKey) (v : List Nat) : List (PathKey × List Nat) →
    List (PathKey × List Nat)
  | [] => [(p, v)]
  | e :: rest => if e.1 = p then (p, v) :: rest else e :: setF p v rest

/-- Append a written chunk to an existing regular file (`outFile.write`);
a path that is not listed has no open file behind it, so nothing happens. -/
def appF (p : PathKey) (c : List Nat) : List (PathKey × List Nat) →
    List (PathKey × List Nat)
  | [] => []
  | e :: rest => if e.1 = p then (e.1, e.2 ++ c) :: rest else e :: appF p c rest

/-- Remove a regular file from the listing. -/
def eraseF (p : PathKey) : List (PathKey × List Nat) → List (PathKey × List Nat)
  | [] => []
  | e :: rest => if e.1 = p then eraseF p rest else e :: eraseF p rest

/-- The filesystem: regular files (with contents, in enumeration order),
existing directories, and the environment conditions under which an open for
writing, an open for reading, or an `fs::remove` fails. -/
structure FS where
  files : List (PathKey × List Nat)
  dirs : List PathKey
  unwritable : List PathKey
  unreadable : List PathKey
  unremovable : List PathKey
deriving DecidableEq

/-- One response event per call of a response-encoding function.  The
`version` byte (always 1) is implicit; `nameLen` and `contentSize` are the
truncated integer fields the code computes; `sent` counts the content bytes
the transport accepted (`totalBytesSent`). -/
inductive Resp where
  | simple (status : Nat)
  | full (status : Nat) (nameLen : Nat) (filename : List Nat)
  | streamed (status : Nat) (nameLen : Nat) (filename : List Nat)
      (contentSize : Nat) (content : List Nat) (sent : Nat)
deriving DecidableEq

/-- Connection-session state: undelivered input bytes, remaining write
capacity, filesystem, response trace, `m_userId`, and the ghost flag that
some read failed. -/
structure SState where
  input : List Nat
  wcap : Nat
  fs : FS
  trace : List Resp
  userId : Nat
  rfail : Bool
deriving DecidableEq

/-- `RequestHandler::readBytes`: read exactly `n` bytes or fail.  A failed
`boost::asio::read` consumes every byte the transport still had. -/
def readB (n : Nat) (s : SState) : Option (List Nat) × SState :=
  if n ≤ s.input.length then
    (some (s.input.take n), { s with input := s.input.drop n })
  else
    (none, { s with input := [], rfail := true })

/-- `RequestHandler::sendBytes`: write exactly `len` bytes; succeeds iff the
transport still accepts that many, consuming capacity either way. -/
def sendB (len : Nat) (s : SState) : Bool × SState :=
  (decide (len ≤ s.wcap), { s with wcap := s.wcap - len })

/-- `RequestHandler::sendSimpleStatusResponse` (3 header bytes). -/
def sendSimpleStatusResponse (status : Nat) (s : SState) : SState :=
  let r1 := sendB 3 s
  { r1.2 with trace := r1.2.trace ++ [Resp.simple status] }

/-- `RequestHandler::sendFullHeaderResponse`: header, `u16 nameLen`, then
`nameLen` filename bytes. -/
def sendFullHeaderResponse (status : Nat) (filename : List Nat) (s : SState) :
    SState :=
  let nameLen := filename.length % 65536
  let r1 := sendB 3 s
  let r2 := sendB 2 r1.2
  let r3 := sendB nameLen r2.2
  { r3.2 with
    trace := r3.2.trace ++ [Resp.full status nameLen (filename.take nameLen)] }

/-- Content loop of `sendStreamResponse`: while `total < contentSize`, read
up to 4096 bytes from the stream; stop at end of stream or on a failed send.
Fuel bounds the iteration count (each continuing step consumes at least one
content byte). -/
def sloopAux (contentSize : Nat) : Nat → List Nat → Nat → SState → Nat × SState
  | 0, _, total, s => (total, s)
  | fuel + 1, content, total, s =>
    if total < contentSize then
      let chunk := content.take 4096
      if 0 < chunk.length then
        match sendB chunk.length s with
        | (true, s1) => sloopAux contentSize fuel (content.drop 4096)
            (total + chunk.length) s1
        | (false, s1) => (total, s1)
      else (total, s)
    else (total, s)

/-- `RequestHandler::sendStreamResponse`: header, `u16 nameLen`, filename,
`u32 contentSize`, then the chunked content loop. -/
def sendStreamResponse (status : Nat) (filename : List Nat)
    (contentSize : Nat) (content : List Nat) (s : SState) : SState :=
  let nameLen := filename.length % 65536
  let r1 := sendB 3 s
  let r2 := sendB 2 r1.2
  let r3 := sendB nameLen r2.2
  let r4 := sendB 4 r3.2
  let r5 := sloopAux contentSize (content.length + 1) content 0 r4.2
  { r5.2 with
    trace := r5.2.trace ++
      [Resp.streamed status nameLen (filename.take nameLen) contentSize
        content r5.1] }

/-- Root of the per-user storage tree (`C:\backupsvr` itself). -/
def rootKey : PathKey := (0, [])

/-- The parent directory of a resolved location. -/
def parentKey : PathKey → PathKey
  | (a, []) => (a + 1, [])
  | (a, cs) => (a, cs.dropLast)

/-- Whether a resolved location is an existing directory (the storage root
always exists; `handleRequest` re-creates it before each dispatch). -/
def isDirFS (fs : FS) (p : PathKey) : Bool :=
  decide (p = rootKey) || decide (p ∈ fs.dirs)

/-- Whether `std::ofstream(filePath, std::ios::binary)` fails to open:
environmental failure, the target is a directory, or its parent directory
does not exist. -/
def openWriteFails (fs : FS) (p : PathKey) : Bool :=
  decide (p ∈ fs.unwritable) || isDirFS fs p || !isDirFS fs (parentKey p)

/-- `fs::create_directories(userDir)`: ensure the user's directory exists. -/
def mkdirs (uid : Nat) (fs : FS) : FS :=
  if (0, [uidComp uid]) ∈ fs.dirs then fs
  else { fs with dirs := fs.dirs ++ [(0, [uidComp uid])] }

/-- `fs::remove`: `(removed?, new filesystem)`.  Returns `false` when the
file does not exist; a file in `unremovable` fails to be removed. -/
def fsRemove (p : PathKey) (fs : FS) : Bool × FS :=
  if (lookupF p fs.files).isSome then
    if p ∈ fs.unremovable then (false, fs)
    else (true, { fs with files := eraseF p fs.files })
  else (false, fs)

/-- Drain loop of `handleBackup` when the destination cannot be opened:
consume the declared payload in chunks of at most 4096 bytes, stopping early
if the connection breaks. -/
def dloopAux : Nat → Nat → SState → SState
  | 0, _, s => s
  | fuel + 1, remaining, s =>
    if remaining = 0 then s
    else
      let bytesToRead := min 4096 remaining
      match readB bytesToRead s with
      | (none, s1) => s1
      | (some _, s1) => dloopAux fuel (remaining - bytesToRead) s1

/-- Transfer loop of `handleBackup`: read the payload in chunks of at most
4096 bytes, appending each to the destination file.  On a failed read the
partial file is removed (`fs::remove`) and `false` signals that no response
must be sent. -/
def bloopAux (filePath : PathKey) : Nat → Nat → SState → Bool × SState
  | 0, _, s => (true, s)
  | fuel + 1, remaining, s =>
    if remaining = 0 then (true, s)
    else
      let bytesToRead := min 4096 remaining
      match readB bytesToRead s with
      | (none, s1) => (false, { s1 with fs := (fsRemove filePath s1.fs).2 })
      | (some chunk, s1) =>
        bloopAux filePath fuel (remaining - bytesToRead)
          { s1 with fs := { s1.fs with files := appF filePath chunk s1.fs.files } }

/-- `RequestHandler::handleBackup`. -/
def handleBackup (s : SState) : SState :=
  match readB 2 s with
  | (none, s1) => s1
  | (some nl, s1) =>
    let nameLen := decodeLE nl
    match readB nameLen s1 with
    | (none, s2) => s2
    | (some filename, s2) =>
      match readB 4 s2 with
      | (none, s3) => s3
      | (some ps, s3) =>
        let payloadSize := decodeLE ps
        let fs1 := mkdirs s3.userId s3.fs
        let filePath := resolvePath s3.userId filename
        let s4 := { s3 with fs := fs1 }
        if openWriteFails fs1 filePath then
          let s5 := dloopAux (payloadSize + 1) payloadSize s4
          sendFullHeaderResponse 1003 filename s5
        else
          let s5 := { s4 with fs := { fs1 with files := setF filePath [] fs1.files } }
          match bloopAux filePath (payloadSize + 1) payloadSize s5 with
          | (true, s6) => sendFullHeaderResponse 212 filename s6
          | (false, s6) => s6

/-- `RequestHandler::handleRestore`. -/
def handleRestore (s : SState) : SState :=
  match readB 2 s with
  | (none, s1) => s1
  | (some nl, s1) =>
    match readB (decodeLE nl) s1 with
    | (none, s2) => s2
    | (some filename, s2) =>
      let filePath := resolvePath s2.userId filename
      match lookupF filePath s2.fs.files with
      | none => sendFullHeaderResponse 1001 filename s2
      | some content =>
        if filePath ∈ s2.fs.unreadable then
          sendFullHeaderResponse 1003 filename s2
        else
          sendStreamResponse 210 filename (content.length % 2 ^ 32) content s2

/-- `RequestHandler::handleDelete`. -/
def handleDelete (s : SState) : SState :=
  match readB 2 s with
  | (none, s1) => s1
  | (some nl, s1) =>
    match readB (decodeLE nl) s1 with
    | (none, s2) => s2
    | (some filename, s2) =>
      let filePath := resolvePath s2.userId filename
      if (lookupF filePath s2.fs.files).isNone then
        sendFullHeaderResponse 212 filename s2
      else
        match fsRemove filePath s2.fs with
        | (true, fs1) => sendFullHeaderResponse 212 filename { s2 with fs := fs1 }
        | (false, fs1) => sendFullHeaderResponse 1003 filename { s2 with fs := fs1 }

/-- The name of a regular file enumerated directly under a user's directory
(non-recursive, as `fs::directory_iterator` over `userDir`). -/
def childName (uid : Nat) (k : PathKey) : Option (List Nat) :=
  match k with
  | (0, [u, n]) => if u = uidComp uid then some n else none
  | _ => none

/-- Names of the regular files directly under a user's directory, in
enumeration order. -/
def filesFor (uid : Nat) (files : List (PathKey × List Nat)) : List (List Nat) :=
  files.filterMap (fun e => childName uid e.1)

/-- The LIST text blob: each filename followed by a newline. -/
def listBlob (names : List (List Nat)) : List Nat :=
  (names.map (fun n => n ++ [10])).flatten

/-- `RequestHandler::handleListFiles`. -/
def handleListFiles (s : SState) : SState :=
  let userDir : PathKey := (0, [uidComp s.userId])
  let names :=
    if userDir ∈ s.fs.dirs then filesFor s.userId s.fs.files else []
  if names = [] then sendSimpleStatusResponse 1002 s
  else
    let blob := listBlob names
    sendStreamResponse 211 [] (blob.length % 2 ^ 32) blob s

/-- The opcode dispatch of `handleRequest` (default: ERROR_GENERAL with an
empty filename). -/
def dispatch (op : Nat) (s : SState) : SState :=
  if op = 100 then handleBackup s
  else if op = 200 then handleRestore s
  else if op = 201 then handleDelete s
  else if op = 202 then handleListFiles s
  else sendFullHeaderResponse 1003 [] s

/-- Session loop body with fuel: read a 6-byte header or stop, record
`m_userId`, dispatch, repeat.  (`fs::create_directories(BASE_BACKUP_PATH)`
is a no-op here: the storage root always exists in the model.) -/
def sessAux : Nat → SState → SState
  | 0, s => s
  | fuel + 1, s =>
    match readB 6 s with
    | (none, s1) => s1
    | (some hdr, s1) =>
      sessAux fuel (dispatch (hdr.getD 5 0) { s1 with userId := decodeLE (hdr.take 4) })

/-- `RequestHandler::handleRequest`: the `while (true)` connection loop.
Each iteration consumes at least 6 input bytes, so `input.length + 1` fuel
always suffices (`sessAux_fuel` below). -/
def sessionLoop (s : SState) : SState := sessAux (s.input.length + 1) s

/-! ### Wire-coding lemmas -/

theorem decode_encodeU16 (n : Nat) (h : n < 65536) : decodeLE (encodeU16 n) = n := by
  simp only [decodeLE, encodeU16, List.foldr]
  omega

theorem decode_encodeU32 (n : Nat) (h : n < 2 ^ 32) : decodeLE (encodeU32 n) = n := by
  simp only [decodeLE, encodeU32, List.foldr]
  omega

theorem encodeU16_length (n : Nat) : (encodeU16 n).length = 2 := rfl

theorem encodeU32_length (n : Nat) : (encodeU32 n).length = 4 := rfl

/-! ### Read/write primitive lemmas -/

theorem readB_ok {n : Nat} {s : SState} (h : n ≤ s.input.length) :
    readB n s = (some (s.input.take n), { s with input := s.input.drop n }) := by
  simp [readB, h]

theorem readB_err {n : Nat} {s : SState} (h : s.input.length < n) :
    readB n s = (none, { s with input := [], rfail := true }) := by
  simp [readB, Nat.not_le.mpr h]

theorem readB_none_inv {n : Nat} {s s1 : SState}
    (h : readB n s = (none, s1)) :
    s1 = { s with input := [], rfail := true } ∧ s.input.length < n := by
  rcases le_or_lt n s.input.length with hle | hlt
  · rw [readB_ok hle] at h
    simp at h
  · rw [readB_err hlt] at h
    simp at h
    exact ⟨h.symm, hlt⟩

theorem readB_some_inv {n : Nat} {l : List Nat} {s s1 : SState}
    (h : readB n s = (some l, s1)) :
    l = s.input.take n ∧ s1 = { s with input := s.input.drop n } ∧
      n ≤ s.input.length := by
  rcases le_or_lt n s.input.length with hle | hlt
  · rw [readB_ok hle] at h
    simp at h
    exact ⟨h.1.symm, h.2.symm, hle⟩
  · rw [readB_err hlt] at h
    simp at h

theorem sendFullHeaderResponse_eq (status : Nat) (filename : List Nat) (s : SState) :
    sendFullHeaderResponse status filename s =
      { s with wcap := s.wcap - 3 - 2 - filename.length % 65536,
               trace := s.trace ++ [Resp.full status (filename.length % 65536)
                 (filename.take (filename.length % 65536))] } := rfl

theorem sendSimpleStatusResponse_eq (status : Nat) (s : SState) :
    sendSimpleStatusResponse status s =
      { s with wcap := s.wcap - 3, trace := s.trace ++ [Resp.simple status] } := rfl

/-! ### File-listing (association list) lemmas -/

theorem lookupF_setF_self (p : PathKey) (v : List Nat) :
    ∀ l, lookupF p (setF p v l) = some v := by
  intro l
  induction l with
  | nil => simp [setF, lookupF]
  | cons e rest ih =>
    by_cases h : e.1 = p
    · simp [setF, h, lookupF]
    · simp [setF, h, lookupF, ih]

theorem appF_setF (p : PathKey) (c v : List Nat) :
    ∀ l, appF p c (setF p v l) = setF p (v ++ c) l := by
  intro l
  induction l with
  | nil => simp [setF, appF]
  | cons e rest ih =>
    by_cases h : e.1 = p
    · simp [setF, h, appF]
    · simp [setF, h, appF, ih]

theorem appF_appF (p : PathKey) (c1 c2 : List Nat) (l : List (PathKey × List Nat)) :
    appF p c2 (appF p c1 l) = appF p (c1 ++ c2) l := by
  induction l with
  | nil => simp [appF]
  | cons e rest ih =>
    by_cases h : e.1 = p <;> simp_all [appF]

theorem appF_nil (p : PathKey) (l : List (PathKey × List Nat)) :
    appF p [] l = l := by
  induction l with
  | nil => simp [appF]
  | cons e rest ih =>
    obtain ⟨k, v⟩ := e
    by_cases h : k = p <;> simp_all [appF]

theorem lookupF_eraseF_self (p : PathKey) :
    ∀ l, lookupF p (eraseF p l) = none := by
  intro l
  induction l with
  | nil => simp [eraseF, lookupF]
  | cons e rest ih =>
    by_cases h : e.1 = p
    · simpa [eraseF, h] using ih
    · simp [eraseF, h, lookupF, ih]

theorem lookupF_appF_self (p : PathKey) (c : List Nat) :
    ∀ l, lookupF p (appF p c l) = (lookupF p l).map (· ++ c) := by
  intro l
  induction l with
  | nil => simp [appF, lookupF]
  | cons e rest ih =>
    by_cases h : e.1 = p
    · simp [appF, h, lookupF]
    · simp [appF, h, lookupF, ih]

/-! ### Path-resolution lemmas -/

theorem digAux_eq : ∀ (f n : Nat), n ≤ f →
    digAux f n = (Nat.digits 10 n).map (· + 48) := by
  intro f
  induction f with
  | zero =>
    intro n hn
    have : n = 0 := by omega
    simp [this, digAux]
  | succ f ih =>
    intro n hn
    by_cases h0 : n = 0
    · simp [h0, digAux]
    · have hlt : 0 < n := Nat.pos_of_ne_zero h0
      rw [Nat.digits_def' (by norm_num : (1 : Nat) < 10) hlt]
      simp only [digAux, h0, if_false, List.map]
      rw [ih (n / 10) (by omega)]

theorem uidComp_eq_digits (uid : Nat) :
    uidComp uid =
      if uid = 0 then [48] else ((Nat.digits 10 uid).map (· + 48)).reverse := by
  unfold uidComp
  rw [digAux_eq uid uid (Nat.le_refl _)]

theorem uidComp_digit {uid b : Nat} (h : b ∈ uidComp uid) : 48 ≤ b ∧ b ≤ 57 := by
  rw [uidComp_eq_digits] at h
  by_cases h0 : uid = 0
  · simp [h0] at h
    omega
  · simp [h0, List.mem_reverse, List.mem_map] at h
    obtain ⟨d, hd, rfl⟩ := h
    have : d < 10 := Nat.digits_lt_base (by norm_num) hd
    omega

theorem uidComp_ne_nil (uid : Nat) : uidComp uid ≠ [] := by
  rw [uidComp_eq_digits]
  by_cases h0 : uid = 0
  · simp [h0]
  · simp [h0, Nat.digits_ne_nil_iff_ne_zero]

theorem uidComp_ne_dot (uid : Nat) : uidComp uid ≠ [46] := by
  intro h
  have : (46 : Nat) ∈ uidComp uid := by rw [h]; simp
  have := uidComp_digit this
  omega

theorem uidComp_ne_dotdot (uid : Nat) : uidComp uid ≠ [46, 46] := by
  intro h
  have : (46 : Nat) ∈ uidComp uid := by rw [h]; simp
  have := uidComp_digit this
  omega

theorem uidComp_inj {a b : Nat} (h : uidComp a = uidComp b) : a = b := by
  rw [uidComp_eq_digits, uidComp_eq_digits] at h
  by_cases ha : a = 0 <;> by_cases hb : b = 0
  · omega
  · exfalso
    simp [ha, hb] at h
    have h' : (Nat.digits 10 b).map (· + 48) = [48] := by
      have := congrArg List.reverse h
      simpa using this.symm
    have hb0 : Nat.digits 10 b = [0] := by
      rcases hd : Nat.digits 10 b with _ | ⟨d, rest⟩
      · simp [hd] at h'
      · rw [hd] at h'
        simp at h'
        obtain ⟨hd48, hrest⟩ := h'
        have : d = 0 := by omega
        simp [this, hrest]
    have : b = 0 := by
      have := Nat.ofDigits_digits 10 b
      rw [hb0] at this
      simpa using this.symm
    exact hb this
  · exfalso
    simp [ha, hb] at h
    have h' : (Nat.digits 10 a).map (· + 48) = [48] := by
      have := congrArg List.reverse h
      simpa using this
    have ha0 : Nat.digits 10 a = [0] := by
      rcases hd : Nat.digits 10 a with _ | ⟨d, rest⟩
      · simp [hd] at h'
      · rw [hd] at h'
        simp at h'
        obtain ⟨hd48, hrest⟩ := h'
        have : d = 0 := by omega
        simp [this, hrest]
    have : a = 0 := by
      have := Nat.ofDigits_digits 10 a
      rw [ha0] at this
      simpa using this.symm
    exact ha this
  · simp [ha, hb] at h
    have h2 : (Nat.digits 10 a).map (· + 48) = (Nat.digits 10 b).map (· + 48) := by
      have := congrArg List.reverse h
      simpa using this
    have h3 : Nat.digits 10 a = Nat.digits 10 b := by
      have hinj : Function.Injective (· + 48 : Nat → Nat) := fun x y hxy => by
        simp only at hxy
        omega
      exact List.map_injective_iff.mpr hinj h2
    calc a = Nat.ofDigits 10 (Nat.digits 10 a) := (Nat.ofDigits_digits 10 a).symm
      _ = Nat.ofDigits 10 (Nat.digits 10 b) := by rw [h3]
      _ = b := Nat.ofDigits_digits 10 b

theorem splitSepAux_no_sep :
    ∀ (l cur : List Nat), (∀ b ∈ l, isSep b = false) →
      splitSepAux l cur = [cur.reverse ++ l] := by
  intro l
  induction l with
  | nil => intro cur _; simp [splitSepAux]
  | cons b rest ih =>
    intro cur h
    have hb : isSep b = false := h b (by simp)
    simp [splitSepAux, hb]
    rw [ih (b :: cur) (fun x hx => h x (by simp [hx]))]
    simp

theorem plainName_no_sep {name : List Nat} (h : plainName name = true) :
    ∀ b ∈ name, isSep b = false := by
  intro b hb
  simp [plainName, List.all_eq_true] at h
  exact h.2 b hb

/-- A plain filename resolves to the direct child of the user's own
directory with exactly that name. -/
theorem resolvePath_plain (uid : Nat) (name : List Nat) (h : plainName name = true) :
    resolvePath uid name = (0, [uidComp uid, name]) := by
  have hsplit : splitSep name = [name] := by
    simpa using splitSepAux_no_sep name [] (plainName_no_sep h)
  have hu1 : ¬(uidComp uid = [] ∨ uidComp uid = [46]) := by
    simp [uidComp_ne_nil, uidComp_ne_dot]
  have hn : name ≠ [] ∧ name ≠ [46] ∧ name ≠ [46, 46] := by
    simp [plainName] at h
    exact ⟨h.1.1.1, h.1.1.2, h.1.2⟩
  have hn1 : ¬(name = [] ∨ name = [46]) := by simp [hn.1, hn.2.1]
  simp only [resolvePath, hsplit, normAux, hu1, if_false, uidComp_ne_dotdot, hn1,
    hn.2.2, ite_false]
  simp

/-! ### Chunked-loop specifications.  The fuel passed by the wrappers always
satisfies the `r + 1 ≤ f` side conditions, so these cover every call. -/

theorem dloopAux_ok :
    ∀ (f r : Nat) (s : SState), r + 1 ≤ f → r ≤ s.input.length →
      dloopAux f r s = { s with input := s.input.drop r } := by
  intro f
  induction f with
  | zero => intro r s hf _; omega
  | succ f ih =>
    intro r s _ hr
    by_cases h0 : r = 0
    · subst h0; simp [dloopAux]
    · have hbtr : min 4096 r ≤ s.input.length := by omega
      simp only [dloopAux, h0, if_false, readB_ok hbtr]
      rw [ih (r - min 4096 r) _ (by omega) (by simp; omega)]
      simp only [List.drop_drop]
      congr 2
      omega

theorem dloopAux_err :
    ∀ (f r : Nat) (s : SState), r + 1 ≤ f → s.input.length < r →
      dloopAux f r s = { s with input := [], rfail := true } := by
  intro f
  induction f with
  | zero => intro r s hf _; omega
  | succ f ih =>
    intro r s _ hr
    have h0 : r ≠ 0 := by omega
    by_cases hbtr : min 4096 r ≤ s.input.length
    · simp only [dloopAux, h0, if_false, readB_ok hbtr]
      rw [ih (r - min 4096 r) _ (by omega) (by simp; omega)]
    · have hre := readB_err (show s.input.length < min 4096 r by omega)
      simp only [dloopAux, h0, if_false, hre]

theorem bloopAux_ok (p : PathKey) :
    ∀ (f r : Nat) (s : SState), r + 1 ≤ f → r ≤ s.input.length →
      bloopAux p f r s =
        (true,
          { s with
            input := s.input.drop r,
            fs := { s.fs with files := appF p (s.input.take r) s.fs.files } }) := by
  intro f
  induction f with
  | zero => intro r s hf _; omega
  | succ f ih =>
    intro r s _ hr
    by_cases h0 : r = 0
    · subst h0; simp [bloopAux, appF_nil]
    · have hbtr : min 4096 r ≤ s.input.length := by omega
      simp only [bloopAux, h0, if_false, readB_ok hbtr]
      rw [ih (r - min 4096 r) _ (by omega) (by simp; omega)]
      simp only [List.drop_drop, appF_appF]
      have hdrop : min 4096 r + (r - min 4096 r) = r := by omega
      have htake : s.input.take (min 4096 r) ++
          (s.input.drop (min 4096 r)).take (r - min 4096 r) = s.input.take r := by
        rw [← List.take_add, hdrop]
      rw [hdrop, htake]

theorem bloopAux_err (p : PathKey) :
    ∀ (f r : Nat) (s : SState), r + 1 ≤ f → s.input.length < r →
      ∃ g, bloopAux p f r s =
        (false,
          { s with
            input := [],
            rfail := true,
            fs := (fsRemove p { s.fs with files := appF p g s.fs.files }).2 }) := by
  intro f
  induction f with
  | zero => intro r s hf _; omega
  | succ f ih =>
    intro r s _ hr
    have h0 : r ≠ 0 := by omega
    by_cases hbtr : min 4096 r ≤ s.input.length
    · have hstep := ih (r - min 4096 r)
        ({ s with
          input := s.input.drop (min 4096 r),
          fs := { s.fs with files := appF p (s.input.take (min 4096 r)) s.fs.files } })
        (by omega) (by simp; omega)
      obtain ⟨g, hg⟩ := hstep
      refine ⟨s.input.take (min 4096 r) ++ g, ?_⟩
      simp only [bloopAux, h0, if_false, readB_ok hbtr]
      rw [hg]
      simp [appF_appF]
    · refine ⟨[], ?_⟩
      have hre := readB_err (show s.input.length < min 4096 r by omega)
      simp only [bloopAux, h0, if_false, hre]
      simp [appF_nil]

theorem sloopAux_spec (contentSize : Nat) :
    ∀ (f : Nat) (content : List Nat) (total : Nat) (s : SState),
      content.length + 1 ≤ f → contentSize = total + content.length →
      content.length ≤ s.wcap →
      sloopAux contentSize f content total s =
        (total + content.length, { s with wcap := s.wcap - content.length }) := by
  intro f
  induction f with
  | zero => intro c t s hf _ _; omega
  | succ f ih =>
    intro c t s hf hcs hw
    by_cases h0 : c = []
    · subst h0
      simp [sloopAux, hcs]
    · have hlen : 0 < c.length := List.length_pos.mpr h0
      have hcl : (c.take 4096).length = min 4096 c.length := by simp
      have hdl : (c.drop 4096).length = c.length - 4096 := by simp
      have hclpos : 0 < (c.take 4096).length := by rw [hcl]; omega
      have hcond : t < contentSize := by omega
      have hsend : sendB (c.take 4096).length s =
          (true, { s with wcap := s.wcap - (c.take 4096).length }) := by
        simp [sendB]
        omega
      simp only [sloopAux, hcond, if_true, hclpos, if_true, hsend]
      rw [ih (c.drop 4096) (t + (c.take 4096).length) _
        (by rw [hdl]; omega) (by rw [hcl, hdl]; omega) (by rw [hcl, hdl]; simp; omega)]
      have h1 : t + (c.take 4096).length + (c.drop 4096).length = t + c.length := by
        rw [hcl, hdl]; omega
      have h2 : s.wcap - (c.take 4096).length - (c.drop 4096).length =
          s.wcap - c.length := by
        rw [hcl, hdl]; omega
      rw [h1, h2]

/-- Fully successful streamed response: header fields plus the whole content
delivered, when the transport still accepts enough bytes. -/
theorem sendStreamResponse_spec (status : Nat) (filename content : List Nat)
    (s : SState)
    (h : content.length + 9 + filename.length % 65536 ≤ s.wcap) :
    sendStreamResponse status filename content.length content s =
      { s with
        wcap := s.wcap - 3 - 2 - filename.length % 65536 - 4 - content.length,
        trace := s.trace ++ [Resp.streamed status (filename.length % 65536)
          (filename.take (filename.length % 65536)) content.length content
          content.length] } := by
  unfold sendStreamResponse
  simp only [sendB]
  rw [sloopAux_spec content.length (content.length + 1) content 0 _ (by omega)
    (by omega) (by simp; omega)]
  simp

/-! ### What the response encoders leave untouched: everything except the
write capacity and the trace. -/

theorem sloopAux_same (cs : Nat) :
    ∀ (f : Nat) (c : List Nat) (t : Nat) (s : SState),
      (sloopAux cs f c t s).2.input = s.input ∧
      (sloopAux cs f c t s).2.fs = s.fs ∧
      (sloopAux cs f c t s).2.userId = s.userId ∧
      (sloopAux cs f c t s).2.rfail = s.rfail ∧
      (sloopAux cs f c t s).2.trace = s.trace := by
  intro f
  induction f with
  | zero => intro c t s; simp [sloopAux]
  | succ f ih =>
    intro c t s
    simp only [sloopAux]
    by_cases h1 : t < cs
    · simp only [h1, if_true]
      by_cases h2 : 0 < (c.take 4096).length
      · simp only [h2, if_true, sendB]
        by_cases h3 : (c.take 4096).length ≤ s.wcap
        · simp only [decide_eq_true h3]
          exact ih (c.drop 4096) (t + (c.take 4096).length) _
        · simp only [decide_eq_false h3]
          simp
      · simp only [h2, if_false]
        simp
    · simp only [h1, if_false]
      simp

theorem sendStreamResponse_same (status cs : Nat) (filename content : List Nat)
    (s : SState) :
    (sendStreamResponse status filename cs content s).input = s.input ∧
    (sendStreamResponse status filename cs content s).fs = s.fs ∧
    (sendStreamResponse status filename cs content s).userId = s.userId ∧
    (sendStreamResponse status filename cs content s).rfail = s.rfail ∧
    ∃ e, (sendStreamResponse status filename cs content s).trace = s.trace ++ [e] := by
  have hsl := sloopAux_same cs (content.length + 1) content 0
    { s with wcap := s.wcap - 3 - 2 - filename.length % 65536 - 4 }
  refine ⟨hsl.1, hsl.2.1, hsl.2.2.1, hsl.2.2.2.1,
    ⟨Resp.streamed status (filename.length % 65536)
      (filename.take (filename.length % 65536)) cs content
      (sloopAux cs (content.length + 1) content 0
        { s with wcap := s.wcap - 3 - 2 - filename.length % 65536 - 4 }).1, ?_⟩⟩
  have hdef : (sendStreamResponse status filename cs content s).trace =
      (sloopAux cs (content.length + 1) content 0
        { s with wcap := s.wcap - 3 - 2 - filename.length % 65536 - 4 }).2.trace ++
      [Resp.streamed status (filename.length % 65536)
        (filename.take (filename.length % 65536)) cs content
        (sloopAux cs (content.length + 1) content 0
          { s with wcap := s.wcap - 3 - 2 - filename.length % 65536 - 4 }).1] := rfl
  rw [hdef, hsl.2.2.2.2]

/-! ### Input monotonicity: no operation ever grows the undelivered input. -/

theorem readB_input_le (n : Nat) (s : SState) :
    (readB n s).2.input.length ≤ s.input.length := by
  rcases le_or_lt n s.input.length with h | h
  · rw [readB_ok h]; simp
  · rw [readB_err h]; simp

theorem dloopAux_input_le (f r : Nat) (s : SState) (hf : r + 1 ≤ f) :
    (dloopAux f r s).input.length ≤ s.input.length := by
  rcases le_or_lt r s.input.length with h | h
  · rw [dloopAux_ok f r s hf h]; simp
  · rw [dloopAux_err f r s hf h]; simp

theorem bloopAux_input_le (p : PathKey) (f r : Nat) (s : SState) (hf : r + 1 ≤ f) :
    (bloopAux p f r s).2.input.length ≤ s.input.length := by
  rcases le_or_lt r s.input.length with h | h
  · rw [bloopAux_ok p f r s hf h]; simp
  · obtain ⟨g, hg⟩ := bloopAux_err p f r s hf h
    rw [hg]
    simp

/-! ### Master case analyses: every dispatched request either appends exactly
one response to the trace, or appends none, in which case a read failed and
the remaining input is exhausted.  The first conjunct (input monotonicity) is
unconditional and also feeds the session-loop fuel argument. -/

theorem handleRestore_master (s : SState) :
    (handleRestore s).input.length ≤ s.input.length ∧
    (s.rfail = false →
      ((handleRestore s).rfail = true → (handleRestore s).input = []) ∧
      ((handleRestore s).trace.length = s.trace.length + 1 ∨
        ((handleRestore s).trace = s.trace ∧ (handleRestore s).rfail = true))) := by
  unfold handleRestore
  split
  case _ s1 heq =>
    obtain ⟨hs1, hlen⟩ := readB_none_inv heq
    subst hs1
    exact ⟨by simp, fun _ => ⟨fun _ => rfl, Or.inr ⟨rfl, rfl⟩⟩⟩
  case _ nl s1 heq =>
    obtain ⟨hnl, hs1, hlen⟩ := readB_some_inv heq
    subst hnl
    subst hs1
    split
    case _ s2 heq2 =>
      obtain ⟨hs2, hlen2⟩ := readB_none_inv heq2
      subst hs2
      exact ⟨by simp, fun _ => ⟨fun _ => rfl, Or.inr ⟨rfl, rfl⟩⟩⟩
    case _ fn s2 heq2 =>
      obtain ⟨hfn, hs2, hlen2⟩ := readB_some_inv heq2
      subst hfn
      subst hs2
      dsimp only
      split
      case _ hlk =>
        constructor
        · simp [sendFullHeaderResponse_eq]
        · intro hrf
          simp [sendFullHeaderResponse_eq, hrf]
      case _ content hlk =>
        split
        case _ hun =>
          constructor
          · simp [sendFullHeaderResponse_eq]
          · intro hrf
            simp [sendFullHeaderResponse_eq, hrf]
        case _ hun =>
          obtain ⟨e1, e2, e3, e4, e5⟩ := sendStreamResponse_same 210
            (content.length % 2 ^ 32)
            ((List.drop 2 s.input).take (decodeLE (List.take 2 s.input))) content
            { s with input := (List.drop 2 s.input).drop (decodeLE (List.take 2 s.input)) }
          constructor
          · rw [e1]
            simp
          · intro hrf
            obtain ⟨e, he⟩ := e5
            rw [e4, he]
            exact ⟨fun hc => absurd (hrf ▸ hc) (by simp [hrf]), Or.inl (by simp)⟩

theorem handleDelete_master (s : SState) :
    (handleDelete s).input.length ≤ s.input.length ∧
    (s.rfail = false →
      ((handleDelete s).rfail = true → (handleDelete s).input = []) ∧
      ((handleDelete s).trace.length = s.trace.length + 1 ∨
        ((handleDelete s).trace = s.trace ∧ (handleDelete s).rfail = true))) := by
  unfold handleDelete
  split
  case _ s1 heq =>
    obtain ⟨hs1, hlen⟩ := readB_none_inv heq
    subst hs1
    exact ⟨by simp, fun _ => ⟨fun _ => rfl, Or.inr ⟨rfl, rfl⟩⟩⟩
  case _ nl s1 heq =>
    obtain ⟨hnl, hs1, hlen⟩ := readB_some_inv heq
    subst hnl
    subst hs1
    split
    case _ s2 heq2 =>
      obtain ⟨hs2, hlen2⟩ := readB_none_inv heq2
      subst hs2
      exact ⟨by simp, fun _ => ⟨fun _ => rfl, Or.inr ⟨rfl, rfl⟩⟩⟩
    case _ fn s2 heq2 =>
      obtain ⟨hfn, hs2, hlen2⟩ := readB_some_inv heq2
      subst hfn
      subst hs2
      dsimp only
      split
      case _ hlk =>
        constructor
        · simp [sendFullHeaderResponse_eq]
        · intro hrf
          simp [sendFullHeaderResponse_eq, hrf]
      case _ hlk =>
        split
        case _ fs1 heq3 =>
          constructor
          · simp [sendFullHeaderResponse_eq]
          · intro hrf
            simp [sendFullHeaderResponse_eq, hrf]
        case _ fs1 heq3 =>
          constructor
          · simp [sendFullHeaderResponse_eq]
          · intro hrf
            simp [sendFullHeaderResponse_eq, hrf]

theorem handleListFiles_master (s : SState) :
    (handleListFiles s).input.length ≤ s.input.length ∧
    (s.rfail = false →
      ((handleListFiles s).rfail = true → (handleListFiles s).input = []) ∧
      ((handleListFiles s).trace.length = s.trace.length + 1 ∨
        ((handleListFiles s).trace = s.trace ∧ (handleListFiles s).rfail = true))) := by
  unfold handleListFiles
  dsimp only
  by_cases hdir : (0, [uidComp s.userId]) ∈ s.fs.dirs
  · rw [if_pos hdir]
    by_cases hfe : filesFor s.userId s.fs.files = []
    · rw [if_pos hfe]
      constructor
      · simp [sendSimpleStatusResponse_eq]
      · intro hrf
        simp [sendSimpleStatusResponse_eq, hrf]
    · rw [if_neg hfe]
      obtain ⟨e1, e2, e3, e4, e5⟩ := sendStreamResponse_same 211
        ((listBlob (filesFor s.userId s.fs.files)).length % 2 ^ 32) []
        (listBlob (filesFor s.userId s.fs.files)) s
      constructor
      · rw [e1]
      · intro hrf
        obtain ⟨e, he⟩ := e5
        rw [e4, he]
        exact ⟨fun hc => absurd (hrf ▸ hc) (by simp [hrf]), Or.inl (by simp)⟩
  · rw [if_neg hdir]
    constructor
    · simp [sendSimpleStatusResponse_eq]
    · intro hrf
      simp [sendSimpleStatusResponse_eq, hrf]

theorem handleBackup_master (s : SState) :
    (handleBackup s).input.length ≤ s.input.length ∧
    (s.rfail = false →
      ((handleBackup s).rfail = true → (handleBackup s).input = []) ∧
      ((handleBackup s).trace.length = s.trace.length + 1 ∨
        ((handleBackup s).trace = s.trace ∧ (handleBackup s).rfail = true))) := by
  unfold handleBackup
  split
  case _ s1 heq =>
    obtain ⟨hs1, hlen⟩ := readB_none_inv heq
    subst hs1
    exact ⟨by simp, fun _ => ⟨fun _ => rfl, Or.inr ⟨rfl, rfl⟩⟩⟩
  case _ nl s1 heq =>
    obtain ⟨hnl, hs1, hlen⟩ := readB_some_inv heq
    subst hnl
    subst hs1
    dsimp only
    split
    case _ s2 heq2 =>
      obtain ⟨hs2, hlen2⟩ := readB_none_inv heq2
      subst hs2
      exact ⟨by simp, fun _ => ⟨fun _ => rfl, Or.inr ⟨rfl, rfl⟩⟩⟩
    case _ fn s2 heq2 =>
      obtain ⟨hfn, hs2, hlen2⟩ := readB_some_inv heq2
      subst hfn
      subst hs2
      split
      case _ s3 heq3 =>
        obtain ⟨hs3, hlen3⟩ := readB_none_inv heq3
        subst hs3
        exact ⟨by simp, fun _ => ⟨fun _ => rfl, Or.inr ⟨rfl, rfl⟩⟩⟩
      case _ ps s3 heq3 =>
        obtain ⟨hps, hs3, hlen3⟩ := readB_some_inv heq3
        subst hps
        subst hs3
        dsimp only
        split
        case _ hop =>
          rcases le_or_lt
            (decodeLE (((List.drop 2 s.input).drop (decodeLE (List.take 2 s.input))).take 4))
            ((((List.drop 2 s.input).drop (decodeLE (List.take 2 s.input))).drop 4)).length
            with hd | hd
          · rw [dloopAux_ok _ _ _ (Nat.le_refl _) hd]
            constructor
            · simp [sendFullHeaderResponse_eq]
            · intro hrf
              simp [sendFullHeaderResponse_eq, hrf]
          · rw [dloopAux_err _ _ _ (Nat.le_refl _) (by simpa using hd)]
            constructor
            · simp [sendFullHeaderResponse_eq]
            · intro hrf
              refine ⟨fun _ => by simp [sendFullHeaderResponse_eq], Or.inl ?_⟩
              simp [sendFullHeaderResponse_eq]
        case _ hop =>
          rcases le_or_lt
            (decodeLE (((List.drop 2 s.input).drop (decodeLE (List.take 2 s.input))).take 4))
            ((((List.drop 2 s.input).drop (decodeLE (List.take 2 s.input))).drop 4)).length
            with hd | hd
          · rw [bloopAux_ok _ _ _ _ (Nat.le_refl _) (by simpa using hd)]
            dsimp only
            constructor
            · simp [sendFullHeaderResponse_eq]
            · intro hrf
              simp [sendFullHeaderResponse_eq, hrf]
          · obtain ⟨g, hg⟩ := bloopAux_err
              (resolvePath s.userId
                ((List.drop 2 s.input).take (decodeLE (List.take 2 s.input))))
              (decodeLE (((List.drop 2 s.input).drop
                (decodeLE (List.take 2 s.input))).take 4) + 1)
              (decodeLE (((List.drop 2 s.input).drop
                (decodeLE (List.take 2 s.input))).take 4))
              ({ s with
                input := ((List.drop 2 s.input).drop
                  (decodeLE (List.take 2 s.input))).drop 4,
                fs := { mkdirs s.userId s.fs with
                  files := setF
                    (resolvePath s.userId
                      ((List.drop 2 s.input).take (decodeLE (List.take 2 s.input))))
                    [] (mkdirs s.userId s.fs).files } })
              (Nat.le_refl _) (by simpa using hd)
            rw [hg]
            dsimp only
            exact ⟨by simp, fun _ => ⟨fun _ => rfl, Or.inr ⟨rfl, rfl⟩⟩⟩

theorem dispatch_master (b : Nat) (s : SState) :
    (dispatch b s).input.length ≤ s.input.length ∧
    (s.rfail = false →
      ((dispatch b s).rfail = true → (dispatch b s).input = []) ∧
      ((dispatch b s).trace.length = s.trace.length + 1 ∨
        ((dispatch b s).trace = s.trace ∧ (dispatch b s).rfail = true))) := by
  unfold dispatch
  by_cases h100 : b = 100
  · simp only [h100, if_true]
    exact handleBackup_master s
  · simp only [h100, if_false]
    by_cases h200 : b = 200
    · simp only [h200, if_true]
      exact handleRestore_master s
    · simp only [h200, if_false]
      by_cases h201 : b = 201
      · simp only [h201, if_true]
        exact handleDelete_master s
      · simp only [h201, if_false]
        by_cases h202 : b = 202
        · simp only [h202, if_true]
          exact handleListFiles_master s
        · simp only [h202, if_false]
          constructor
          · simp [sendFullHeaderResponse_eq]
          · intro hrf
            simp [sendFullHeaderResponse_eq, hrf]

/-! ### Session-loop equations.  The wrapper fuel `input.length + 1` is
always enough because a dispatched request never grows the input and a
successful header read consumes 6 bytes. -/

theorem dispatch_input_le (b : Nat) (s : SState) :
    (dispatch b s).input.length ≤ s.input.length :=
  (dispatch_master b s).1

theorem sessAux_fuel (f : Nat) : ∀ (s : SState), s.input.length + 1 ≤ f →
    sessAux f s = sessAux (s.input.length + 1) s := by
  induction f using Nat.strong_induction_on with
  | _ f ih =>
    intro s hf
    rcases f with _ | f'
    · omega
    · rcases le_or_lt 6 s.input.length with h6 | h6
      · have hunf : ∀ g, sessAux (g + 1) s =
            sessAux g (dispatch ((s.input.take 6).getD 5 0)
              { s with
                input := s.input.drop 6,
                userId := decodeLE ((s.input.take 6).take 4) }) := by
          intro g
          simp only [sessAux, readB_ok h6]
        rw [hunf f', hunf s.input.length]
        have hXle : (dispatch ((s.input.take 6).getD 5 0)
            { s with
              input := s.input.drop 6,
              userId := decodeLE ((s.input.take 6).take 4) }).input.length
            ≤ s.input.length - 6 := by
          have := dispatch_input_le ((s.input.take 6).getD 5 0)
            { s with
              input := s.input.drop 6,
              userId := decodeLE ((s.input.take 6).take 4) }
          dsimp only at this
          rw [List.length_drop] at this
          exact this
        rw [ih f' (by omega) _ (by omega), ih s.input.length (by omega) _ (by omega)]
      · have hre := readB_err (show s.input.length < 6 from h6)
        rcases Nat.exists_eq_add_of_le hf with ⟨k, hk⟩
        simp only [sessAux, hre]

theorem sessionLoop_step (s : SState) (h6 : 6 ≤ s.input.length) :
    sessionLoop s = sessionLoop (dispatch ((s.input.take 6).getD 5 0)
      { s with
        input := s.input.drop 6,
        userId := decodeLE ((s.input.take 6).take 4) }) := by
  unfold sessionLoop
  have hunf : sessAux (s.input.length + 1) s =
      sessAux s.input.length (dispatch ((s.input.take 6).getD 5 0)
        { s with
          input := s.input.drop 6,
          userId := decodeLE ((s.input.take 6).take 4) }) := by
    simp only [sessAux, readB_ok h6]
  rw [hunf]
  have hXle : (dispatch ((s.input.take 6).getD 5 0)
      { s with
        input := s.input.drop 6,
        userId := decodeLE ((s.input.take 6).take 4) }).input.length
      ≤ s.input.length - 6 := by
    have := dispatch_input_le ((s.input.take 6).getD 5 0)
      { s with
        input := s.input.drop 6,
        userId := decodeLE ((s.input.take 6).take 4) }
    dsimp only at this
    rw [List.length_drop] at this
    exact this
  exact sessAux_fuel s.input.length _ (by omega)

theorem sessionLoop_halt (s : SState) (h : s.input.length < 6) :
    sessionLoop s = { s with input := [], rfail := true } := by
  unfold sessionLoop
  simp only [sessAux, readB_err h]

theorem sessionLoop_fix (s : SState) (h1 : s.input = []) (h2 : s.rfail = true) :
    sessionLoop s = s := by
  rw [sessionLoop_halt s (by simp [h1])]
  cases s
  simp_all

/-! ### Reading known prefixes off the wire -/

theorem readB_pre (xs rest2 : List Nat) (s : SState) (h : s.input = xs ++ rest2) :
    readB xs.length s = (some xs, { s with input := rest2 }) := by
  rw [readB_ok (by simp [h])]
  rw [h, List.take_left, List.drop_left]

theorem readB2_enc16 (n : Nat) (rest2 : List Nat) (s : SState)
    (h : s.input = encodeU16 n ++ rest2) :
    readB 2 s = (some (encodeU16 n), { s with input := rest2 }) :=
  readB_pre (encodeU16 n) rest2 s h

theorem readB4_enc32 (n : Nat) (rest2 : List Nat) (s : SState)
    (h : s.input = encodeU32 n ++ rest2) :
    readB 4 s = (some (encodeU32 n), { s with input := rest2 }) :=
  readB_pre (encodeU32 n) rest2 s h

theorem bloopAux_pre (p : PathKey) (payload rest2 : List Nat) (s : SState)
    (h : s.input = payload ++ rest2) :
    bloopAux p (payload.length + 1) payload.length s =
      (true, { s with
        input := rest2,
        fs := { s.fs with files := appF p payload s.fs.files } }) := by
  rw [bloopAux_ok p _ _ s (Nat.le_refl _) (by simp [h])]
  rw [h, List.take_left, List.drop_left]

theorem dloopAux_pre (payload rest2 : List Nat) (s : SState)
    (h : s.input = payload ++ rest2) :
    dloopAux (payload.length + 1) payload.length s = { s with input := rest2 } := by
  rw [dloopAux_ok _ _ s (Nat.le_refl _) (by simp [h])]
  rw [h, List.drop_left]

/-! ### Operation-level specifications on well-formed request bodies -/

/-- Successful BACKUP: the user directory is ensured, the destination is
created/truncated and then holds exactly the payload, and GENERAL_SUCCESS
carries the filename. -/
theorem handleBackup_spec_ok (uid w : Nat) (name payload rest : List Nat)
    (fs : FS) (tr : List Resp)
    (hn16 : name.length < 65536) (hp32 : payload.length < 2 ^ 32)
    (hop : openWriteFails (mkdirs uid fs) (resolvePath uid name) = false) :
    handleBackup
      { input := encodeU16 name.length ++ (name ++ (encodeU32 payload.length
          ++ (payload ++ rest))),
        wcap := w, fs := fs, trace := tr, userId := uid, rfail := false } =
      { input := rest,
        wcap := w - 3 - 2 - name.length,
        fs := { mkdirs uid fs with
          files := setF (resolvePath uid name) payload (mkdirs uid fs).files },
        trace := tr ++ [Resp.full 212 name.length name],
        userId := uid, rfail := false } := by
  have hd16 := decode_encodeU16 name.length hn16
  have hd32 := decode_encodeU32 payload.length hp32
  have hmod : name.length % 65536 = name.length := Nat.mod_eq_of_lt hn16
  unfold handleBackup
  rw [readB2_enc16 name.length
    (name ++ (encodeU32 payload.length ++ (payload ++ rest)))
    ({ input := encodeU16 name.length ++ (name ++ (encodeU32 payload.length ++ (payload ++ rest))),
       wcap := w, fs := fs, trace := tr, userId := uid, rfail := false }) rfl]
  dsimp only
  rw [hd16]
  rw [readB_pre name (encodeU32 payload.length ++ (payload ++ rest))
    ({ input := name ++ (encodeU32 payload.length ++ (payload ++ rest)),
       wcap := w, fs := fs, trace := tr, userId := uid, rfail := false }) rfl]
  dsimp only
  rw [readB4_enc32 payload.length (payload ++ rest)
    ({ input := encodeU32 payload.length ++ (payload ++ rest),
       wcap := w, fs := fs, trace := tr, userId := uid, rfail := false }) rfl]
  dsimp only
  rw [hd32]
  simp only [hop, Bool.false_eq_true, if_false]
  rw [bloopAux_pre (resolvePath uid name) payload rest
    ({ input := payload ++ rest, wcap := w,
       fs := { mkdirs uid fs with
         files := setF (resolvePath uid name) [] (mkdirs uid fs).files },
       trace := tr, userId := uid, rfail := false }) rfl]
  dsimp only
  rw [sendFullHeaderResponse_eq]
  simp [hmod, appF_setF]

theorem mkdirs_files (uid : Nat) (fs : FS) : (mkdirs uid fs).files = fs.files := by
  unfold mkdirs
  split <;> rfl

theorem mkdirs_unwritable (uid : Nat) (fs : FS) :
    (mkdirs uid fs).unwritable = fs.unwritable := by
  unfold mkdirs
  split <;> rfl

theorem mkdirs_unreadable (uid : Nat) (fs : FS) :
    (mkdirs uid fs).unreadable = fs.unreadable := by
  unfold mkdirs
  split <;> rfl

theorem mkdirs_unremovable (uid : Nat) (fs : FS) :
    (mkdirs uid fs).unremovable = fs.unremovable := by
  unfold mkdirs
  split <;> rfl

theorem mkdirs_dir_mem (uid : Nat) (fs : FS) :
    (0, [uidComp uid]) ∈ (mkdirs uid fs).dirs := by
  unfold mkdirs
  split
  next h => exact h
  next h => simp

/-- BACKUP with an unopenable destination: the full declared payload is
drained off the connection, the filesystem keeps only the ensured user
directory, and ERROR_GENERAL carries the filename. -/
theorem handleBackup_spec_unopen (uid w : Nat) (name payload rest : List Nat)
    (fs : FS) (tr : List Resp)
    (hn16 : name.length < 65536) (hp32 : payload.length < 2 ^ 32)
    (hop : openWriteFails (mkdirs uid fs) (resolvePath uid name) = true) :
    handleBackup
      { input := encodeU16 name.length ++ (name ++ (encodeU32 payload.length
          ++ (payload ++ rest))),
        wcap := w, fs := fs, trace := tr, userId := uid, rfail := false } =
      { input := rest,
        wcap := w - 3 - 2 - name.length,
        fs := mkdirs uid fs,
        trace := tr ++ [Resp.full 1003 name.length name],
        userId := uid, rfail := false } := by
  have hd16 := decode_encodeU16 name.length hn16
  have hd32 := decode_encodeU32 payload.length hp32
  have hmod : name.length % 65536 = name.length := Nat.mod_eq_of_lt hn16
  unfold handleBackup
  rw [readB2_enc16 name.length
    (name ++ (encodeU32 payload.length ++ (payload ++ rest)))
    ({ input := encodeU16 name.length ++ (name ++ (encodeU32 payload.length ++ (payload ++ rest))),
       wcap := w, fs := fs, trace := tr, userId := uid, rfail := false }) rfl]
  dsimp only
  rw [hd16]
  rw [readB_pre name (encodeU32 payload.length ++ (payload ++ rest))
    ({ input := name ++ (encodeU32 payload.length ++ (payload ++ rest)),
       wcap := w, fs := fs, trace := tr, userId := uid, rfail := false }) rfl]
  dsimp only
  rw [readB4_enc32 payload.length (payload ++ rest)
    ({ input := encodeU32 payload.length ++ (payload ++ rest),
       wcap := w, fs := fs, trace := tr, userId := uid, rfail := false }) rfl]
  dsimp only
  rw [hd32]
  simp only [hop, if_true]
  rw [dloopAux_pre payload rest
    ({ input := payload ++ rest, wcap := w, fs := mkdirs uid fs,
       trace := tr, userId := uid, rfail := false }) rfl]
  rw [sendFullHeaderResponse_eq]
  simp [hmod]

/-- BACKUP aborted mid-payload by a transport read failure (with an openable
destination): no response, input exhausted, and the partially written file is
removed again. -/
theorem handleBackup_spec_abort (uid w N : Nat) (name frag : List Nat)
    (fs : FS) (tr : List Resp)
    (hn16 : name.length < 65536) (hN32 : N < 2 ^ 32) (hfr : frag.length < N)
    (hop : openWriteFails (mkdirs uid fs) (resolvePath uid name) = false)
    (hnr : resolvePath uid name ∉ fs.unremovable) :
    (handleBackup
      { input := encodeU16 name.length ++ (name ++ (encodeU32 N ++ frag)),
        wcap := w, fs := fs, trace := tr, userId := uid, rfail := false }).trace = tr ∧
    (handleBackup
      { input := encodeU16 name.length ++ (name ++ (encodeU32 N ++ frag)),
        wcap := w, fs := fs, trace := tr, userId := uid, rfail := false }).input = [] ∧
    (handleBackup
      { input := encodeU16 name.length ++ (name ++ (encodeU32 N ++ frag)),
        wcap := w, fs := fs, trace := tr, userId := uid, rfail := false }).rfail = true ∧
    lookupF (resolvePath uid name)
      (handleBackup
        { input := encodeU16 name.length ++ (name ++ (encodeU32 N ++ frag)),
          wcap := w, fs := fs, trace := tr, userId := uid, rfail := false }).fs.files
      = none := by
  have hd16 := decode_encodeU16 name.length hn16
  have hd32 := decode_encodeU32 N hN32
  unfold handleBackup
  rw [readB2_enc16 name.length (name ++ (encodeU32 N ++ frag))
    ({ input := encodeU16 name.length ++ (name ++ (encodeU32 N ++ frag)),
       wcap := w, fs := fs, trace := tr, userId := uid, rfail := false }) rfl]
  dsimp only
  rw [hd16]
  rw [readB_pre name (encodeU32 N ++ frag)
    ({ input := name ++ (encodeU32 N ++ frag),
       wcap := w, fs := fs, trace := tr, userId := uid, rfail := false }) rfl]
  dsimp only
  rw [readB4_enc32 N frag
    ({ input := encodeU32 N ++ frag,
       wcap := w, fs := fs, trace := tr, userId := uid, rfail := false }) rfl]
  dsimp only
  rw [hd32]
  simp only [hop, Bool.false_eq_true, if_false]
  obtain ⟨g, hg⟩ := bloopAux_err (resolvePath uid name) (N + 1) N
    ({ input := frag, wcap := w,
       fs := { mkdirs uid fs with
         files := setF (resolvePath uid name) [] (mkdirs uid fs).files },
       trace := tr, userId := uid, rfail := false })
    (Nat.le_refl _) (by simpa using hfr)
  rw [hg]
  dsimp only
  refine ⟨rfl, rfl, rfl, ?_⟩
  have hpresent : (lookupF (resolvePath uid name)
      (appF (resolvePath uid name)
        g (setF (resolvePath uid name) [] (mkdirs uid fs).files))).isSome = true := by
    rw [lookupF_appF_self, lookupF_setF_self]
    rfl
  unfold fsRemove
  dsimp only
  rw [if_pos hpresent]
  rw [mkdirs_unremovable]
  rw [if_neg hnr]
  exact lookupF_eraseF_self _ _

/-- RESTORE of an existing readable file streams back exactly its bytes with
the exact length field, when the transport accepts them. -/
theorem handleRestore_spec_found (uid w : Nat) (name content rest : List Nat)
    (fs : FS) (tr : List Resp)
    (hn16 : name.length < 65536) (hc32 : content.length < 2 ^ 32)
    (hlk : lookupF (resolvePath uid name) fs.files = some content)
    (hrd : resolvePath uid name ∉ fs.unreadable)
    (hw : content.length + 9 + name.length ≤ w) :
    handleRestore
      { input := encodeU16 name.length ++ (name ++ rest),
        wcap := w, fs := fs, trace := tr, userId := uid, rfail := false } =
      { input := rest,
        wcap := w - 3 - 2 - name.length - 4 - content.length,
        fs := fs,
        trace := tr ++ [Resp.streamed 210 name.length name content.length
          content content.length],
        userId := uid, rfail := false } := by
  have hd16 := decode_encodeU16 name.length hn16
  have hmod : name.length % 65536 = name.length := Nat.mod_eq_of_lt hn16
  have hcmod : content.length % 2 ^ 32 = content.length := Nat.mod_eq_of_lt hc32
  unfold handleRestore
  rw [readB2_enc16 name.length (name ++ rest)
    ({ input := encodeU16 name.length ++ (name ++ rest),
       wcap := w, fs := fs, trace := tr, userId := uid, rfail := false }) rfl]
  dsimp only
  rw [hd16]
  rw [readB_pre name rest
    ({ input := name ++ rest,
       wcap := w, fs := fs, trace := tr, userId := uid, rfail := false }) rfl]
  dsimp only
  rw [hlk]
  dsimp only
  rw [if_neg hrd]
  rw [hcmod]
  rw [sendStreamResponse_spec 210 name content
    ({ input := rest, wcap := w, fs := fs, trace := tr, userId := uid, rfail := false })
    (by dsimp only; omega)]
  simp [hmod]

/-- RESTORE of an absent file answers ERROR_NO_FILE with the filename. -/
theorem handleRestore_spec_missing (uid w : Nat) (name rest : List Nat)
    (fs : FS) (tr : List Resp)
    (hn16 : name.length < 65536)
    (hlk : lookupF (resolvePath uid name) fs.files = none) :
    handleRestore
      { input := encodeU16 name.length ++ (name ++ rest),
        wcap := w, fs := fs, trace := tr, userId := uid, rfail := false } =
      { input := rest,
        wcap := w - 3 - 2 - name.length,
        fs := fs,
        trace := tr ++ [Resp.full 1001 name.length name],
        userId := uid, rfail := false } := by
  have hd16 := decode_encodeU16 name.length hn16
  have hmod : name.length % 65536 = name.length := Nat.mod_eq_of_lt hn16
  unfold handleRestore
  rw [readB2_enc16 name.length (name ++ rest)
    ({ input := encodeU16 name.length ++ (name ++ rest),
       wcap := w, fs := fs, trace := tr, userId := uid, rfail := false }) rfl]
  dsimp only
  rw [hd16]
  rw [readB_pre name rest
    ({ input := name ++ rest,
       wcap := w, fs := fs, trace := tr, userId := uid, rfail := false }) rfl]
  dsimp only
  rw [hlk]
  dsimp only
  rw [sendFullHeaderResponse_eq]
  simp [hmod]

/-- DELETE of an absent file is already GENERAL_SUCCESS, leaving the
filesystem unchanged. -/
theorem handleDelete_spec_missing (uid w : Nat) (name rest : List Nat)
    (fs : FS) (tr : List Resp)
    (hn16 : name.length < 65536)
    (hlk : lookupF (resolvePath uid name) fs.files = none) :
    handleDelete
      { input := encodeU16 name.length ++ (name ++ rest),
        wcap := w, fs := fs, trace := tr, userId := uid, rfail := false } =
      { input := rest,
        wcap := w - 3 - 2 - name.length,
        fs := fs,
        trace := tr ++ [Resp.full 212 name.length name],
        userId := uid, rfail := false } := by
  have hd16 := decode_encodeU16 name.length hn16
  have hmod : name.length % 65536 = name.length := Nat.mod_eq_of_lt hn16
  unfold handleDelete
  rw [readB2_enc16 name.length (name ++ rest)
    ({ input := encodeU16 name.length ++ (name ++ rest),
       wcap := w, fs := fs, trace := tr, userId := uid, rfail := false }) rfl]
  dsimp only
  rw [hd16]
  rw [readB_pre name rest
    ({ input := name ++ rest,
       wcap := w, fs := fs, trace := tr, userId := uid, rfail := false }) rfl]
  dsimp only
  rw [if_pos (by rw [hlk]; rfl)]
  rw [sendFullHeaderResponse_eq]
  simp [hmod]

/-- DELETE of an existing removable file removes it and answers
GENERAL_SUCCESS with the filename. -/
theorem handleDelete_spec_found (uid w : Nat) (name content rest : List Nat)
    (fs : FS) (tr : List Resp)
    (hn16 : name.length < 65536)
    (hlk : lookupF (resolvePath uid name) fs.files = some content)
    (hnr : resolvePath uid name ∉ fs.unremovable) :
    handleDelete
      { input := encodeU16 name.length ++ (name ++ rest),
        wcap := w, fs := fs, trace := tr, userId := uid, rfail := false } =
      { input := rest,
        wcap := w - 3 - 2 - name.length,
        fs := { fs with files := eraseF (resolvePath uid name) fs.files },
        trace := tr ++ [Resp.full 212 name.length name],
        userId := uid, rfail := false } := by
  have hd16 := decode_encodeU16 name.length hn16
  have hmod : name.length % 65536 = name.length := Nat.mod_eq_of_lt hn16
  unfold handleDelete
  rw [readB2_enc16 name.length (name ++ rest)
    ({ input := encodeU16 name.length ++ (name ++ rest),
       wcap := w, fs := fs, trace := tr, userId := uid, rfail := false }) rfl]
  dsimp only
  rw [hd16]
  rw [readB_pre name rest
    ({ input := name ++ rest,
       wcap := w, fs := fs, trace := tr, userId := uid, rfail := false }) rfl]
  dsimp only
  rw [if_neg (by rw [hlk]; simp)]
  have hrem : fsRemove (resolvePath uid name) fs =
      (true, { fs with files := eraseF (resolvePath uid name) fs.files }) := by
    unfold fsRemove
    rw [if_pos (by rw [hlk]; rfl), if_neg hnr]
  rw [hrem]
  dsimp only
  rw [sendFullHeaderResponse_eq]
  simp [hmod]

/-- DELETE of an existing file whose removal fails answers ERROR_GENERAL
with the filename and leaves the file in place. -/
theorem handleDelete_spec_stuck (uid w : Nat) (name content rest : List Nat)
    (fs : FS) (tr : List Resp)
    (hn16 : name.length < 65536)
    (hlk : lookupF (resolvePath uid name) fs.files = some content)
    (hnr : resolvePath uid name ∈ fs.unremovable) :
    handleDelete
      { input := encodeU16 name.length ++ (name ++ rest),
        wcap := w, fs := fs, trace := tr, userId := uid, rfail := false } =
      { input := rest,
        wcap := w - 3 - 2 - name.length,
        fs := fs,
        trace := tr ++ [Resp.full 1003 name.length name],
        userId := uid, rfail := false } := by
  have hd16 := decode_encodeU16 name.length hn16
  have hmod : name.length % 65536 = name.length := Nat.mod_eq_of_lt hn16
  unfold handleDelete
  rw [readB2_enc16 name.length (name ++ rest)
    ({ input := encodeU16 name.length ++ (name ++ rest),
       wcap := w, fs := fs, trace := tr, userId := uid, rfail := false }) rfl]
  dsimp only
  rw [hd16]
  rw [readB_pre name rest
    ({ input := name ++ rest,
       wcap := w, fs := fs, trace := tr, userId := uid, rfail := false }) rfl]
  dsimp only
  rw [if_neg (by rw [hlk]; simp)]
  have hrem : fsRemove (resolvePath uid name) fs = (false, fs) := by
    unfold fsRemove
    rw [if_pos (by rw [hlk]; rfl), if_pos hnr]
  rw [hrem]
  dsimp only
  rw [sendFullHeaderResponse_eq]
  simp [hmod]

/-- LIST with an absent user directory or no regular files in it: the
status-only ERROR_NO_FILES_FOR_CLIENT response. -/
theorem handleListFiles_spec_empty (uid w : Nat) (inp : List Nat)
    (fs : FS) (tr : List Resp)
    (h : ¬((0, [uidComp uid]) ∈ fs.dirs) ∨ filesFor uid fs.files = []) :
    handleListFiles
      { input := inp, wcap := w, fs := fs, trace := tr, userId := uid, rfail := false } =
      { input := inp, wcap := w - 3, fs := fs,
        trace := tr ++ [Resp.simple 1002], userId := uid, rfail := false } := by
  unfold handleListFiles
  dsimp only
  rcases h with h | h
  · rw [if_neg h]
    rw [if_pos rfl]
    rw [sendSimpleStatusResponse_eq]
  · by_cases hdir : (0, [uidComp uid]) ∈ fs.dirs
    · rw [if_pos hdir, if_pos h, sendSimpleStatusResponse_eq]
    · rw [if_neg hdir, if_pos rfl, sendSimpleStatusResponse_eq]

/-- LIST with at least one regular file directly under the existing user
directory: LIST_SUCCESS, empty filename, the exact blob length, and the
newline-terminated blob of names in enumeration order. -/
theorem handleListFiles_spec_found (uid w : Nat) (inp : List Nat)
    (fs : FS) (tr : List Resp)
    (hdir : (0, [uidComp uid]) ∈ fs.dirs)
    (hne : filesFor uid fs.files ≠ [])
    (hb32 : (listBlob (filesFor uid fs.files)).length < 2 ^ 32)
    (hw : (listBlob (filesFor uid fs.files)).length + 9 ≤ w) :
    handleListFiles
      { input := inp, wcap := w, fs := fs, trace := tr, userId := uid, rfail := false } =
      { input := inp,
        wcap := w - 3 - 2 - 0 - 4 - (listBlob (filesFor uid fs.files)).length,
        fs := fs,
        trace := tr ++ [Resp.streamed 211 0 []
          (listBlob (filesFor uid fs.files)).length
          (listBlob (filesFor uid fs.files))
          (listBlob (filesFor uid fs.files)).length],
        userId := uid, rfail := false } := by
  have hbmod : (listBlob (filesFor uid fs.files)).length % 2 ^ 32 =
      (listBlob (filesFor uid fs.files)).length := Nat.mod_eq_of_lt hb32
  unfold handleListFiles
  dsimp only
  rw [if_pos hdir, if_neg hne, hbmod]
  rw [sendStreamResponse_spec 211 [] (listBlob (filesFor uid fs.files))
    ({ input := inp, wcap := w, fs := fs, trace := tr, userId := uid, rfail := false })
    (by simp; omega)]
  simp

/-- Reading one request header off the session input: `userId` is recorded
and the opcode byte is dispatched on, with the rest of the input intact. -/
theorem sessionLoop_header (uid v b w : Nat) (rest : List Nat)
    (fs : FS) (tr : List Resp) (u0 : Nat) (huid : uid < 2 ^ 32) :
    sessionLoop
      { input := encodeU32 uid ++ ([v, b] ++ rest),
        wcap := w, fs := fs, trace := tr, userId := u0, rfail := false } =
    sessionLoop (dispatch b
      { input := rest, wcap := w, fs := fs, trace := tr, userId := uid, rfail := false }) := by
  have h1 : ((encodeU32 uid ++ ([v, b] ++ rest)).take 6).getD 5 0 = b := by
    simp [encodeU32]
  have h2 : (encodeU32 uid ++ ([v, b] ++ rest)).drop 6 = rest := by
    simp [encodeU32]
  have h3 : decodeLE (((encodeU32 uid ++ ([v, b] ++ rest)).take 6).take 4) = uid := by
    simp [encodeU32, decodeLE]
    omega
  rw [sessionLoop_step _ (by simp [encodeU32])]
  rw [h1, h2, h3]

theorem dispatch_backup (s : SState) : dispatch 100 s = handleBackup s := rfl

theorem dispatch_restore (s : SState) : dispatch 200 s = handleRestore s := rfl

theorem dispatch_delete (s : SState) : dispatch 201 s = handleDelete s := rfl

theorem dispatch_list (s : SState) : dispatch 202 s = handleListFiles s := rfl

theorem dispatch_unknown (b : Nat) (s : SState)
    (h100 : b ≠ 100) (h200 : b ≠ 200) (h201 : b ≠ 201) (h202 : b ≠ 202) :
    dispatch b s = sendFullHeaderResponse 1003 [] s := by
  unfold dispatch
  rw [if_neg h100, if_neg h200, if_neg h201, if_neg h202]

/-- For a plain filename whose destination is neither a pre-existing
directory nor environmentally unwritable, the open succeeds: the parent is
the user directory just ensured by `create_directories`. -/
theorem openWriteFails_plain_false (uid : Nat) (name : List Nat) (fs : FS)
    (hpl : plainName name = true)
    (hnd : (0, [uidComp uid, name]) ∉ fs.dirs)
    (hnw : (0, [uidComp uid, name]) ∉ fs.unwritable) :
    openWriteFails (mkdirs uid fs) (resolvePath uid name) = false := by
  rw [resolvePath_plain uid name hpl]
  unfold openWriteFails isDirFS parentKey rootKey
  have hunw : ((0, [uidComp uid, name]) : PathKey) ∉ (mkdirs uid fs).unwritable := by
    rw [mkdirs_unwritable]
    exact hnw
  have hne : ((0, [uidComp uid, name]) : PathKey) ≠ (0, []) := by simp
  have hnd' : ((0, [uidComp uid, name]) : PathKey) ∉ (mkdirs uid fs).dirs := by
    unfold mkdirs
    split
    · exact hnd
    · intro hmem
      rcases List.mem_append.mp hmem with hmem | hmem
      · exact hnd hmem
      · simp at hmem
  have hpar : (((0, [uidComp uid, name]) : PathKey).2.dropLast) = [uidComp uid] := by
    simp
  simp only [hunw, hne, hnd', hpar, decide_eq_true_eq]
  simp [mkdirs_dir_mem]

/-- C1 (claim as stated is false): a BACKUP to an unwritable destination
whose declared 10-byte payload is cut off after 3 bytes suffers a read
failure while reading the payload, yet the server still sends the
ERROR_GENERAL response for that request. -/
theorem C1_cex :
    (dispatch 100
      { input := [1, 0, 120, 10, 0, 0, 0, 1, 2, 3], wcap := 1000,
        fs := { files := [], dirs := [], unwritable := [(0, [[49], [120]])],
                unreadable := [], unremovable := [] },
        trace := [], userId := 1, rfail := false }).rfail = true ∧
    (dispatch 100
      { input := [1, 0, 120, 10, 0, 0, 0, 1, 2, 3], wcap := 1000,
        fs := { files := [], dirs := [], unwritable := [(0, [[49], [120]])],
                unreadable := [], unremovable := [] },
        trace := [], userId := 1, rfail := false }).trace
      = [Resp.full 1003 1 [120]] := by
  decide

/-- C1 (amended): every dispatched request appends exactly one response to
the trace, except that a request hit by a transport read failure may append
none — and then the input is exhausted and the session loop halts (the
response can still be sent when the failure strikes while draining the
payload of an unopenable destination, which is the first disjunct). -/
theorem C1_response_discipline (b : Nat) (s : SState) (h : s.rfail = false) :
    (dispatch b s).trace.length = s.trace.length + 1 ∨
    ((dispatch b s).trace = s.trace ∧ (dispatch b s).input = [] ∧
      sessionLoop (dispatch b s) = dispatch b s) := by
  obtain ⟨_, hcond⟩ := dispatch_master b s
  obtain ⟨hinp, hdisj⟩ := hcond h
  rcases hdisj with h1 | ⟨h2, h3⟩
  · exact Or.inl h1
  · exact Or.inr ⟨h2, hinp h3, sessionLoop_fix _ (hinp h3) h3⟩

theorem C1_witness :
    (dispatch 202
      { input := [], wcap := 5,
        fs := { files := [], dirs := [], unwritable := [], unreadable := [],
                unremovable := [] },
        trace := [], userId := 3, rfail := false }).trace.length =
      (({ input := [], wcap := 5,
          fs := { files := [], dirs := [], unwritable := [], unreadable := [],
                  unremovable := [] },
          trace := [], userId := 3, rfail := false } : SState)).trace.length + 1 ∨
    ((dispatch 202
      { input := [], wcap := 5,
        fs := { files := [], dirs := [], unwritable := [], unreadable := [],
                unremovable := [] },
        trace := [], userId := 3, rfail := false }).trace =
      (({ input := [], wcap := 5,
          fs := { files := [], dirs := [], unwritable := [], unreadable := [],
                  unremovable := [] },
          trace := [], userId := 3, rfail := false } : SState)).trace ∧
     (dispatch 202
      { input := [], wcap := 5,
        fs := { files := [], dirs := [], unwritable := [], unreadable := [],
                unremovable := [] },
        trace := [], userId := 3, rfail := false }).input = [] ∧
     sessionLoop (dispatch 202
      { input := [], wcap := 5,
        fs := { files := [], dirs := [], unwritable := [], unreadable := [],
                unremovable := [] },
        trace := [], userId := 3, rfail := false }) =
      dispatch 202
      { input := [], wcap := 5,
        fs := { files := [], dirs := [], unwritable := [], unreadable := [],
                unremovable := [] },
        trace := [], userId := 3, rfail := false }) :=
  C1_response_discipline 202 _ rfl

/-- C3 (claim as stated is false): the filename `../2/x` sent by user 1
resolves outside user 1's subtree — to the same location as user 2's file
`x`, so two distinct users collide. -/
theorem C3_cex :
    resolvePath 1 [46, 46, 47, 50, 47, 120] = resolvePath 2 [120] ∧
    (resolvePath 1 [46, 46, 47, 50, 47, 120]).2.head? ≠ some (uidComp 1) := by
  decide

/-- C3 (amended): for filenames free of path separators and distinct from
`.` and `..` (and nonempty), BACKUP/RESTORE/DELETE resolution lands exactly
on the direct child of the user's own directory bearing that name, and two
distinct user ids can never resolve to the same location. -/
theorem C3_scoped_resolution (uid1 uid2 : Nat) (name : List Nat)
    (hpl : plainName name = true) :
    resolvePath uid1 name = (0, [uidComp uid1, name]) ∧
    (resolvePath uid1 name = resolvePath uid2 name → uid1 = uid2) := by
  refine ⟨resolvePath_plain uid1 name hpl, fun heq => ?_⟩
  rw [resolvePath_plain uid1 name hpl, resolvePath_plain uid2 name hpl] at heq
  simp at heq
  exact uidComp_inj heq

theorem C3_witness :
    (resolvePath 1 [120] = (0, [uidComp 1, [120]]) ∧
      (resolvePath 1 [120] = resolvePath 2 [120] → 1 = 2)) :=
  C3_scoped_resolution 1 2 [120] (by decide)

/-- C4 (claim as stated is false): with a transport that accepts no outgoing
bytes (`wcap = 0`), every send fails, yet a session carrying two DELETE
requests still processes both — the second file is removed and both response
attempts are recorded. -/
theorem C4_cex :
    (sessionLoop
      { input := [7, 0, 0, 0, 1, 201, 1, 0, 97, 7, 0, 0, 0, 1, 201, 1, 0, 98],
        wcap := 0,
        fs := { files := [((0, [[55], [97]]), [1]), ((0, [[55], [98]]), [2])],
                dirs := [(0, [[55]])], unwritable := [], unreadable := [],
                unremovable := [] },
        trace := [], userId := 0, rfail := false }).fs.files = [] ∧
    (sessionLoop
      { input := [7, 0, 0, 0, 1, 201, 1, 0, 97, 7, 0, 0, 0, 1, 201, 1, 0, 98],
        wcap := 0,
        fs := { files := [((0, [[55], [97]]), [1]), ((0, [[55], [98]]), [2])],
                dirs := [(0, [[55]])], unwritable := [], unreadable := [],
                unremovable := [] },
        trace := [], userId := 0, rfail := false }).trace
      = [Resp.full 212 1 [97], Resp.full 212 1 [98]] := by
  decide

/-- C4 (amended): transport READ errors are connection-fatal — once a
dispatched request's read fails, the input is exhausted and the session loop
halts — while send failures are not: all three response encoders return
normally and leave the input, the filesystem, the user id and the
read-failure status untouched whatever the write capacity, so the session
continues with the next request. -/
theorem C4_transport_errors :
    (∀ (b : Nat) (s : SState), s.rfail = false → (dispatch b s).rfail = true →
      (dispatch b s).input = [] ∧ sessionLoop (dispatch b s) = dispatch b s) ∧
    (∀ (status : Nat) (filename : List Nat) (s : SState),
      (sendFullHeaderResponse status filename s).input = s.input ∧
      (sendFullHeaderResponse status filename s).fs = s.fs ∧
      (sendFullHeaderResponse status filename s).rfail = s.rfail) ∧
    (∀ (status : Nat) (s : SState),
      (sendSimpleStatusResponse status s).input = s.input ∧
      (sendSimpleStatusResponse status s).fs = s.fs ∧
      (sendSimpleStatusResponse status s).rfail = s.rfail) ∧
    (∀ (status cs : Nat) (filename content : List Nat) (s : SState),
      (sendStreamResponse status filename cs content s).input = s.input ∧
      (sendStreamResponse status filename cs content s).fs = s.fs ∧
      (sendStreamResponse status filename cs content s).rfail = s.rfail) := by
  refine ⟨fun b s h hrf => ?_, fun status filename s => ⟨rfl, rfl, rfl⟩,
    fun status s => ⟨rfl, rfl, rfl⟩, fun status cs filename content s => ?_⟩
  · obtain ⟨_, hcond⟩ := dispatch_master b s
    obtain ⟨hinp, _⟩ := hcond h
    exact ⟨hinp hrf, sessionLoop_fix _ (hinp hrf) hrf⟩
  · obtain ⟨h1, h2, _, h4, _⟩ := sendStreamResponse_same status cs filename content s
    exact ⟨h1, h2, h4⟩

theorem C4_witness :
    (dispatch 100
      { input := [1, 0, 120, 10, 0, 0, 0, 1, 2, 3], wcap := 1000,
        fs := { files := [], dirs := [(0, [[49]])], unwritable := [],
                unreadable := [], unremovable := [] },
        trace := [], userId := 1, rfail := false }).input = [] ∧
    sessionLoop (dispatch 100
      { input := [1, 0, 120, 10, 0, 0, 0, 1, 2, 3], wcap := 1000,
        fs := { files := [], dirs := [(0, [[49]])], unwritable := [],
                unreadable := [], unremovable := [] },
        trace := [], userId := 1, rfail := false }) =
      dispatch 100
      { input := [1, 0, 120, 10, 0, 0, 0, 1, 2, 3], wcap := 1000,
        fs := { files := [], dirs := [(0, [[49]])], unwritable := [],
                unreadable := [], unremovable := [] },
        trace := [], userId := 1, rfail := false } :=
  C4_transport_errors.1 100 _ rfl (by decide)

/-- C2: a session carrying a BACKUP of `payload` under `(uid, name)` followed
by a RESTORE of the same `(uid, name)` stores exactly the payload bytes and
answers GENERAL_SUCCESS then RESTORE_SUCCESS, the latter with a
content-length field equal to `payload.length` and all payload bytes
delivered — for payloads of any size, including 0, below, at, and beyond the
4096-byte chunk size (round-trip law `restore(backup(x)) = x`). -/
theorem C2_roundtrip (uid w : Nat) (name payload : List Nat) (fs : FS)
    (hpl : plainName name = true)
    (hn16 : name.length < 65536) (hp32 : payload.length < 2 ^ 32)
    (huid : uid < 2 ^ 32)
    (hnd : (0, [uidComp uid, name]) ∉ fs.dirs)
    (hnw : (0, [uidComp uid, name]) ∉ fs.unwritable)
    (hnr : (0, [uidComp uid, name]) ∉ fs.unreadable)
    (hw : 14 + 2 * name.length + payload.length ≤ w) :
    (sessionLoop
      { input := encodeU32 uid ++ ([1, 100] ++ (encodeU16 name.length ++ (name
          ++ (encodeU32 payload.length ++ (payload ++ (encodeU32 uid ++ ([1, 200]
          ++ (encodeU16 name.length ++ name)))))))),
        wcap := w, fs := fs, trace := [], userId := 0, rfail := false }).trace =
      [Resp.full 212 name.length name,
       Resp.streamed 210 name.length name payload.length payload payload.length] ∧
    lookupF (0, [uidComp uid, name])
      (sessionLoop
        { input := encodeU32 uid ++ ([1, 100] ++ (encodeU16 name.length ++ (name
            ++ (encodeU32 payload.length ++ (payload ++ (encodeU32 uid ++ ([1, 200]
            ++ (encodeU16 name.length ++ name)))))))),
          wcap := w, fs := fs, trace := [], userId := 0, rfail := false }).fs.files
      = some payload ∧
    (sessionLoop
      { input := encodeU32 uid ++ ([1, 100] ++ (encodeU16 name.length ++ (name
          ++ (encodeU32 payload.length ++ (payload ++ (encodeU32 uid ++ ([1, 200]
          ++ (encodeU16 name.length ++ name)))))))),
        wcap := w, fs := fs, trace := [], userId := 0, rfail := false }).input
      = [] := by
  have hop := openWriteFails_plain_false uid name fs hpl hnd hnw
  have hres := resolvePath_plain uid name hpl
  rw [sessionLoop_header uid 1 100 w
    (encodeU16 name.length ++ (name ++ (encodeU32 payload.length ++ (payload
      ++ (encodeU32 uid ++ ([1, 200] ++ (encodeU16 name.length ++ name)))))))
    fs [] 0 huid]
  rw [dispatch_backup]
  rw [handleBackup_spec_ok uid w name payload
    (encodeU32 uid ++ ([1, 200] ++ (encodeU16 name.length ++ name)))
    fs [] hn16 hp32 hop]
  rw [sessionLoop_header uid 1 200 (w - 3 - 2 - name.length)
    (encodeU16 name.length ++ name)
    ({ mkdirs uid fs with
      files := setF (resolvePath uid name) payload (mkdirs uid fs).files })
    ([] ++ [Resp.full 212 name.length name]) uid huid]
  rw [dispatch_restore]
  rw [show (encodeU16 name.length ++ name : List Nat)
    = encodeU16 name.length ++ (name ++ []) from by simp]
  rw [handleRestore_spec_found uid (w - 3 - 2 - name.length) name payload []
    ({ mkdirs uid fs with
      files := setF (resolvePath uid name) payload (mkdirs uid fs).files })
    ([] ++ [Resp.full 212 name.length name]) hn16 hp32
    (by dsimp only; exact lookupF_setF_self _ _ _)
    (by dsimp only; rw [mkdirs_unreadable, hres]; exact hnr)
    (by omega)]
  rw [sessionLoop_halt _ (by simp)]
  refine ⟨by simp, ?_, rfl⟩
  dsimp only
  rw [← hres]
  exact lookupF_setF_self _ _ _

/-- C5: a BACKUP whose payload read fails mid-stream (declared `N` bytes,
only `frag` arrived) deletes the partially written destination before
returning: no file remains under that `(uid, name)`, no response is sent,
and the input is exhausted. -/
theorem C5_abort_cleanup (uid w N : Nat) (name frag : List Nat)
    (fs : FS) (tr : List Resp)
    (hn16 : name.length < 65536) (hN32 : N < 2 ^ 32) (hfr : frag.length < N)
    (hop : openWriteFails (mkdirs uid fs) (resolvePath uid name) = false)
    (hnr : resolvePath uid name ∉ fs.unremovable) :
    lookupF (resolvePath uid name)
      (handleBackup
        { input := encodeU16 name.length ++ (name ++ (encodeU32 N ++ frag)),
          wcap := w, fs := fs, trace := tr, userId := uid, rfail := false }).fs.files
      = none ∧
    (handleBackup
      { input := encodeU16 name.length ++ (name ++ (encodeU32 N ++ frag)),
        wcap := w, fs := fs, trace := tr, userId := uid, rfail := false }).trace = tr ∧
    (handleBackup
      { input := encodeU16 name.length ++ (name ++ (encodeU32 N ++ frag)),
        wcap := w, fs := fs, trace := tr, userId := uid, rfail := false }).input = [] ∧
    (handleBackup
      { input := encodeU16 name.length ++ (name ++ (encodeU32 N ++ frag)),
        wcap := w, fs := fs, trace := tr, userId := uid, rfail := false }).rfail = true := by
  obtain ⟨h1, h2, h3, h4⟩ :=
    handleBackup_spec_abort uid w N name frag fs tr hn16 hN32 hfr hop hnr
  exact ⟨h4, h1, h2, h3⟩

/-- C6: a BACKUP whose destination cannot be opened for writing still drains
the full declared payload from the connection (framing preserved: exactly
the payload bytes are consumed, `rest` remains) and then responds
ERROR_GENERAL carrying the filename, leaving the filesystem with only the
ensured user directory. -/
theorem C6_drain_then_error (uid w : Nat) (name payload rest : List Nat)
    (fs : FS) (tr : List Resp)
    (hn16 : name.length < 65536) (hp32 : payload.length < 2 ^ 32)
    (hop : openWriteFails (mkdirs uid fs) (resolvePath uid name) = true) :
    handleBackup
      { input := encodeU16 name.length ++ (name ++ (encodeU32 payload.length
          ++ (payload ++ rest))),
        wcap := w, fs := fs, trace := tr, userId := uid, rfail := false } =
      { input := rest,
        wcap := w - 3 - 2 - name.length,
        fs := mkdirs uid fs,
        trace := tr ++ [Resp.full 1003 name.length name],
        userId := uid, rfail := false } :=
  handleBackup_spec_unopen uid w name payload rest fs tr hn16 hp32 hop

/-- C7: DELETE is idempotent — deleting an absent file and deleting an
existing (removable) file both answer GENERAL_SUCCESS with the filename, and
in both cases a subsequent RESTORE of that name answers ERROR_NO_FILE; a
failed removal of an existing file answers ERROR_GENERAL. -/
theorem C7_delete_idempotent (uid w : Nat) (name content : List Nat)
    (fs : FS) (tr : List Resp) (hn16 : name.length < 65536) :
    (lookupF (resolvePath uid name) fs.files = none →
      (handleRestore (handleDelete
        { input := encodeU16 name.length ++ (name ++ (encodeU16 name.length ++ name)),
          wcap := w, fs := fs, trace := tr, userId := uid, rfail := false })).trace =
        tr ++ [Resp.full 212 name.length name] ++ [Resp.full 1001 name.length name] ∧
      (handleDelete
        { input := encodeU16 name.length ++ (name ++ (encodeU16 name.length ++ name)),
          wcap := w, fs := fs, trace := tr, userId := uid, rfail := false }).fs = fs) ∧
    (lookupF (resolvePath uid name) fs.files = some content →
      resolvePath uid name ∉ fs.unremovable →
      (handleRestore (handleDelete
        { input := encodeU16 name.length ++ (name ++ (encodeU16 name.length ++ name)),
          wcap := w, fs := fs, trace := tr, userId := uid, rfail := false })).trace =
        tr ++ [Resp.full 212 name.length name] ++ [Resp.full 1001 name.length name] ∧
      lookupF (resolvePath uid name)
        (handleDelete
          { input := encodeU16 name.length ++ (name ++ (encodeU16 name.length ++ name)),
            wcap := w, fs := fs, trace := tr, userId := uid, rfail := false }).fs.files
        = none) ∧
    (lookupF (resolvePath uid name) fs.files = some content →
      resolvePath uid name ∈ fs.unremovable →
      (handleDelete
        { input := encodeU16 name.length ++ (name ++ (encodeU16 name.length ++ name)),
          wcap := w, fs := fs, trace := tr, userId := uid, rfail := false }).trace =
        tr ++ [Resp.full 1003 name.length name]) := by
  refine ⟨fun hlk => ?_, fun hlk hnr => ?_, fun hlk hnr => ?_⟩
  · rw [handleDelete_spec_missing uid w name (encodeU16 name.length ++ name)
      fs tr hn16 hlk]
    rw [show (encodeU16 name.length ++ name : List Nat)
      = encodeU16 name.length ++ (name ++ []) from by simp]
    rw [handleRestore_spec_missing uid (w - 3 - 2 - name.length) name [] fs
      (tr ++ [Resp.full 212 name.length name]) hn16 hlk]
    exact ⟨rfl, rfl⟩
  · rw [handleDelete_spec_found uid w name content (encodeU16 name.length ++ name)
      fs tr hn16 hlk hnr]
    rw [show (encodeU16 name.length ++ name : List Nat)
      = encodeU16 name.length ++ (name ++ []) from by simp]
    rw [handleRestore_spec_missing uid (w - 3 - 2 - name.length) name []
      ({ fs with files := eraseF (resolvePath uid name) fs.files })
      (tr ++ [Resp.full 212 name.length name]) hn16
      (by dsimp only; exact lookupF_eraseF_self _ _)]
    refine ⟨rfl, ?_⟩
    dsimp only
    exact lookupF_eraseF_self _ _
  · rw [handleDelete_spec_stuck uid w name content (encodeU16 name.length ++ name)
      fs tr hn16 hlk hnr]

/-- C8: LIST answers the status-only shape with ERROR_NO_FILES_FOR_CLIENT
when the user's directory is absent or holds no regular files, and otherwise
the header+filename+content shape with LIST_SUCCESS, an empty filename, a
content-length field equal to the blob's exact byte length, and as content
each regular file's name directly under the directory followed by a newline,
in enumeration order. -/
theorem C8_list_shapes (uid w : Nat) (inp : List Nat) (fs : FS) (tr : List Resp) :
    ((¬((0, [uidComp uid]) ∈ fs.dirs) ∨ filesFor uid fs.files = []) →
      handleListFiles
        { input := inp, wcap := w, fs := fs, trace := tr, userId := uid, rfail := false } =
        { input := inp, wcap := w - 3, fs := fs,
          trace := tr ++ [Resp.simple 1002], userId := uid, rfail := false }) ∧
    ((0, [uidComp uid]) ∈ fs.dirs → filesFor uid fs.files ≠ [] →
      (listBlob (filesFor uid fs.files)).length < 2 ^ 32 →
      (listBlob (filesFor uid fs.files)).length + 9 ≤ w →
      handleListFiles
        { input := inp, wcap := w, fs := fs, trace := tr, userId := uid, rfail := false } =
        { input := inp,
          wcap := w - 3 - 2 - 0 - 4 - (listBlob (filesFor uid fs.files)).length,
          fs := fs,
          trace := tr ++ [Resp.streamed 211 0 []
            (listBlob (filesFor uid fs.files)).length
            (listBlob (filesFor uid fs.files))
            (listBlob (filesFor uid fs.files)).length],
          userId := uid, rfail := false }) :=
  ⟨fun h => handleListFiles_spec_empty uid w inp fs tr h,
   fun hdir hne hb32 hw => handleListFiles_spec_found uid w inp fs tr hdir hne hb32 hw⟩

/-- C9: an opcode outside {100, 200, 201, 202} is answered with the
header+filename shape carrying ERROR_GENERAL and an empty filename
(nameLen 0, no filename bytes), and the session goes on to process the rest
of the input exactly as a fresh session would. -/
theorem C9_unknown_op (uid v b w : Nat) (rest : List Nat) (fs : FS)
    (tr : List Resp) (u0 : Nat) (huid : uid < 2 ^ 32)
    (h100 : b ≠ 100) (h200 : b ≠ 200) (h201 : b ≠ 201) (h202 : b ≠ 202) :
    sessionLoop
      { input := encodeU32 uid ++ ([v, b] ++ rest),
        wcap := w, fs := fs, trace := tr, userId := u0, rfail := false } =
    sessionLoop
      { input := rest, wcap := w - 3 - 2 - 0, fs := fs,
        trace := tr ++ [Resp.full 1003 0 []], userId := uid, rfail := false } := by
  rw [sessionLoop_header uid v b w rest fs tr u0 huid]
  rw [dispatch_unknown b _ h100 h200 h201 h202]
  rw [sendFullHeaderResponse_eq]
  simp

/-- C10: a successful BACKUP over an already existing destination truncates
and replaces the stored content entirely with the new payload (never appends
or merges) and answers GENERAL_SUCCESS with the filename: the stored content
after the BACKUP is exactly the most recent payload. -/
theorem C10_overwrite (uid w : Nat) (name payload old rest : List Nat)
    (fs : FS) (tr : List Resp)
    (hpl : plainName name = true)
    (hn16 : name.length < 65536) (hp32 : payload.length < 2 ^ 32)
    (hnd : (0, [uidComp uid, name]) ∉ fs.dirs)
    (hnw : (0, [uidComp uid, name]) ∉ fs.unwritable)
    (_hold : lookupF (resolvePath uid name) fs.files = some old) :
    (handleBackup
      { input := encodeU16 name.length ++ (name ++ (encodeU32 payload.length
          ++ (payload ++ rest))),
        wcap := w, fs := fs, trace := tr, userId := uid, rfail := false }).trace =
      tr ++ [Resp.full 212 name.length name] ∧
    lookupF (resolvePath uid name)
      (handleBackup
        { input := encodeU16 name.length ++ (name ++ (encodeU32 payload.length
            ++ (payload ++ rest))),
          wcap := w, fs := fs, trace := tr, userId := uid, rfail := false }).fs.files
      = some payload ∧
    (handleBackup
      { input := encodeU16 name.length ++ (name ++ (encodeU32 payload.length
          ++ (payload ++ rest))),
        wcap := w, fs := fs, trace := tr, userId := uid, rfail := false }).input
      = rest := by
  have hop := openWriteFails_plain_false uid name fs hpl hnd hnw
  rw [handleBackup_spec_ok uid w name payload rest fs tr hn16 hp32 hop]
  refine ⟨rfl, ?_, rfl⟩
  dsimp only
  exact lookupF_setF_self _ _ _

theorem C2_witness :
    (sessionLoop
      { input := encodeU32 1 ++ ([1, 100] ++ (encodeU16 1 ++ ([120]
          ++ (encodeU32 3 ++ ([9, 8, 7] ++ (encodeU32 1 ++ ([1, 200]
          ++ (encodeU16 1 ++ [120])))))))),
        wcap := 100,
        fs := { files := [], dirs := [], unwritable := [], unreadable := [],
                unremovable := [] },
        trace := [], userId := 0, rfail := false }).trace =
      [Resp.full 212 1 [120], Resp.streamed 210 1 [120] 3 [9, 8, 7] 3] ∧
    lookupF (0, [uidComp 1, [120]])
      (sessionLoop
        { input := encodeU32 1 ++ ([1, 100] ++ (encodeU16 1 ++ ([120]
            ++ (encodeU32 3 ++ ([9, 8, 7] ++ (encodeU32 1 ++ ([1, 200]
            ++ (encodeU16 1 ++ [120])))))))),
          wcap := 100,
          fs := { files := [], dirs := [], unwritable := [], unreadable := [],
                  unremovable := [] },
          trace := [], userId := 0, rfail := false }).fs.files = some [9, 8, 7] ∧
    (sessionLoop
      { input := encodeU32 1 ++ ([1, 100] ++ (encodeU16 1 ++ ([120]
          ++ (encodeU32 3 ++ ([9, 8, 7] ++ (encodeU32 1 ++ ([1, 200]
          ++ (encodeU16 1 ++ [120])))))))),
        wcap := 100,
        fs := { files := [], dirs := [], unwritable := [], unreadable := [],
                unremovable := [] },
        trace := [], userId := 0, rfail := false }).input = [] :=
  C2_roundtrip 1 100 [120] [9, 8, 7]
    { files := [], dirs := [], unwritable := [], unreadable := [], unremovable := [] }
    (by decide) (by decide) (by decide) (by decide) (by decide) (by decide)
    (by decide) (by decide)

theorem C5_witness :
    lookupF (resolvePath 1 [120])
      (handleBackup
        { input := encodeU16 1 ++ ([120] ++ (encodeU32 10 ++ [1, 2, 3])),
          wcap := 50,
          fs := { files := [], dirs := [], unwritable := [], unreadable := [],
                  unremovable := [] },
          trace := [], userId := 1, rfail := false }).fs.files = none ∧
    (handleBackup
      { input := encodeU16 1 ++ ([120] ++ (encodeU32 10 ++ [1, 2, 3])),
        wcap := 50,
        fs := { files := [], dirs := [], unwritable := [], unreadable := [],
                unremovable := [] },
        trace := [], userId := 1, rfail := false }).trace = [] ∧
    (handleBackup
      { input := encodeU16 1 ++ ([120] ++ (encodeU32 10 ++ [1, 2, 3])),
        wcap := 50,
        fs := { files := [], dirs := [], unwritable := [], unreadable := [],
                unremovable := [] },
        trace := [], userId := 1, rfail := false }).input = [] ∧
    (handleBackup
      { input := encodeU16 1 ++ ([120] ++ (encodeU32 10 ++ [1, 2, 3])),
        wcap := 50,
        fs := { files := [], dirs := [], unwritable := [], unreadable := [],
                unremovable := [] },
        trace := [], userId := 1, rfail := false }).rfail = true :=
  C5_abort_cleanup 1 50 10 [120] [1, 2, 3]
    { files := [], dirs := [], unwritable := [], unreadable := [], unremovable := [] }
    [] (by decide) (by decide) (by decide) (by decide) (by decide)

theorem C6_witness :
    handleBackup
      { input := encodeU16 1 ++ ([120] ++ (encodeU32 3 ++ ([9, 8, 7] ++ []))),
        wcap := 50,
        fs := { files := [], dirs := [], unwritable := [(0, [[49], [120]])],
                unreadable := [], unremovable := [] },
        trace := [], userId := 1, rfail := false } =
      { input := [],
        wcap := 50 - 3 - 2 - 1,
        fs := mkdirs 1
          { files := [], dirs := [], unwritable := [(0, [[49], [120]])],
            unreadable := [], unremovable := [] },
        trace := [] ++ [Resp.full 1003 1 [120]],
        userId := 1, rfail := false } :=
  C6_drain_then_error 1 50 [120] [9, 8, 7] []
    { files := [], dirs := [], unwritable := [(0, [[49], [120]])],
      unreadable := [], unremovable := [] }
    [] (by decide) (by decide) (by decide)

theorem C7_witness :
    ((handleRestore (handleDelete
        { input := encodeU16 1 ++ ([120] ++ (encodeU16 1 ++ [120])),
          wcap := 50,
          fs := { files := [], dirs := [], unwritable := [], unreadable := [],
                  unremovable := [] },
          trace := [], userId := 1, rfail := false })).trace =
      [] ++ [Resp.full 212 1 [120]] ++ [Resp.full 1001 1 [120]] ∧
     (handleDelete
        { input := encodeU16 1 ++ ([120] ++ (encodeU16 1 ++ [120])),
          wcap := 50,
          fs := { files := [], dirs := [], unwritable := [], unreadable := [],
                  unremovable := [] },
          trace := [], userId := 1, rfail := false }).fs =
      { files := [], dirs := [], unwritable := [], unreadable := [],
        unremovable := [] }) ∧
    ((handleRestore (handleDelete
        { input := encodeU16 1 ++ ([120] ++ (encodeU16 1 ++ [120])),
          wcap := 50,
          fs := { files := [((0, [[49], [120]]), [5])], dirs := [(0, [[49]])],
                  unwritable := [], unreadable := [], unremovable := [] },
          trace := [], userId := 1, rfail := false })).trace =
      [] ++ [Resp.full 212 1 [120]] ++ [Resp.full 1001 1 [120]] ∧
     lookupF (resolvePath 1 [120])
       (handleDelete
        { input := encodeU16 1 ++ ([120] ++ (encodeU16 1 ++ [120])),
          wcap := 50,
          fs := { files := [((0, [[49], [120]]), [5])], dirs := [(0, [[49]])],
                  unwritable := [], unreadable := [], unremovable := [] },
          trace := [], userId := 1, rfail := false }).fs.files = none) ∧
    ((handleDelete
        { input := encodeU16 1 ++ ([120] ++ (encodeU16 1 ++ [120])),
          wcap := 50,
          fs := { files := [((0, [[49], [120]]), [5])], dirs := [(0, [[49]])],
                  unwritable := [], unreadable := [],
                  unremovable := [(0, [[49], [120]])] },
          trace := [], userId := 1, rfail := false }).trace =
      [] ++ [Resp.full 1003 1 [120]]) :=
  ⟨(C7_delete_idempotent 1 50 [120] [5]
      { files := [], dirs := [], unwritable := [], unreadable := [],
        unremovable := [] } [] (by decide)).1 (by decide),
   (C7_delete_idempotent 1 50 [120] [5]
      { files := [((0, [[49], [120]]), [5])], dirs := [(0, [[49]])],
        unwritable := [], unreadable := [], unremovable := [] }
      [] (by decide)).2.1 (by decide) (by decide),
   (C7_delete_idempotent 1 50 [120] [5]
      { files := [((0, [[49], [120]]), [5])], dirs := [(0, [[49]])],
        unwritable := [], unreadable := [],
        unremovable := [(0, [[49], [120]])] }
      [] (by decide)).2.2 (by decide) (by decide)⟩

theorem C8_witness :
    (handleListFiles
      { input := [], wcap := 50,
        fs := { files := [], dirs := [], unwritable := [], unreadable := [],
                unremovable := [] },
        trace := [], userId := 9, rfail := false } =
      { input := [], wcap := 50 - 3,
        fs := { files := [], dirs := [], unwritable := [], unreadable := [],
                unremovable := [] },
        trace := [] ++ [Resp.simple 1002], userId := 9, rfail := false }) ∧
    (handleListFiles
      { input := [], wcap := 50,
        fs := { files := [((0, [[55], [97]]), [1]), ((0, [[55], [98]]), [2])],
                dirs := [(0, [[55]])], unwritable := [], unreadable := [],
                unremovable := [] },
        trace := [], userId := 7, rfail := false } =
      { input := [],
        wcap := 50 - 3 - 2 - 0 - 4 - (listBlob (filesFor 7
          [((0, [[55], [97]]), [1]), ((0, [[55], [98]]), [2])])).length,
        fs := { files := [((0, [[55], [97]]), [1]), ((0, [[55], [98]]), [2])],
                dirs := [(0, [[55]])], unwritable := [], unreadable := [],
                unremovable := [] },
        trace := [] ++ [Resp.streamed 211 0 []
          (listBlob (filesFor 7
            [((0, [[55], [97]]), [1]), ((0, [[55], [98]]), [2])])).length
          (listBlob (filesFor 7
            [((0, [[55], [97]]), [1]), ((0, [[55], [98]]), [2])]))
          (listBlob (filesFor 7
            [((0, [[55], [97]]), [1]), ((0, [[55], [98]]), [2])])).length],
        userId := 7, rfail := false }) :=
  ⟨(C8_list_shapes 9 50 []
      { files := [], dirs := [], unwritable := [], unreadable := [],
        unremovable := [] } []).1 (Or.inl (by decide)),
   (C8_list_shapes 7 50 []
      { files := [((0, [[55], [97]]), [1]), ((0, [[55], [98]]), [2])],
        dirs := [(0, [[55]])], unwritable := [], unreadable := [],
        unremovable := [] } []).2 (by decide) (by decide) (by decide) (by decide)⟩

theorem C9_witness :
    sessionLoop
      { input := encodeU32 7 ++ ([1, 255] ++ []),
        wcap := 50,
        fs := { files := [], dirs := [], unwritable := [], unreadable := [],
                unremovable := [] },
        trace := [], userId := 0, rfail := false } =
    sessionLoop
      { input := [], wcap := 50 - 3 - 2 - 0,
        fs := { files := [], dirs := [], unwritable := [], unreadable := [],
                unremovable := [] },
        trace := [] ++ [Resp.full 1003 0 []], userId := 7, rfail := false } :=
  C9_unknown_op 7 1 255 50 []
    { files := [], dirs := [], unwritable := [], unreadable := [], unremovable := [] }
    [] 0 (by decide) (by decide) (by decide) (by decide) (by decide)

theorem C10_witness :
    (handleBackup
      { input := encodeU16 1 ++ ([120] ++ (encodeU32 2 ++ ([4, 5] ++ []))),
        wcap := 50,
        fs := { files := [((0, [[49], [120]]), [1, 2, 3])], dirs := [(0, [[49]])],
                unwritable := [], unreadable := [], unremovable := [] },
        trace := [], userId := 1, rfail := false }).trace =
      [] ++ [Resp.full 212 1 [120]] ∧
    lookupF (resolvePath 1 [120])
      (handleBackup
        { input := encodeU16 1 ++ ([120] ++ (encodeU32 2 ++ ([4, 5] ++ []))),
          wcap := 50,
          fs := { files := [((0, [[49], [120]]), [1, 2, 3])], dirs := [(0, [[49]])],
                  unwritable := [], unreadable := [], unremovable := [] },
          trace := [], userId := 1, rfail := false }).fs.files = some [4, 5] ∧
    (handleBackup
      { input := encodeU16 1 ++ ([120] ++ (encodeU32 2 ++ ([4, 5] ++ []))),
        wcap := 50,
        fs := { files := [((0, [[49], [120]]), [1, 2, 3])], dirs := [(0, [[49]])],
                unwritable := [], unreadable := [], unremovable := [] },
        trace := [], userId := 1, rfail := false }).input = [] :=
  C10_overwrite 1 50 [120] [4, 5] [1, 2, 3] []
    { files := [((0, [[49], [120]]), [1, 2, 3])], dirs := [(0, [[49]])],
      unwritable := [], unreadable := [], unremovable := [] }
    [] (by decide) (by decide) (by decide) (by decide) (by decide) (by decide)

end BackupSrv

